import Mathlib

/-!
# CyxWiz FFI binding (`mobile/native/src/cyxwiz_ffi.c`)

A shallow embedding of the C binding layer that exposes the CyxWiz networking
library to Dart, and the properties of it that the design document states.

Conventions of the embedding

* A pointer is a natural number, `NULL` is `0`.
* The machine state is a `World`: the state of the wrapped library, the
  process environment, the blocks handed out by `malloc`, byte memory,
  pointer-sized memory (the `void *` cells that `void **out` parameters point
  to) and the trace of calls the binding made into the library and the C
  runtime.
* The wrapped library (`cyxwiz_*`, the `ops` table of a transport) is not part
  of this file; it is a parameter `Extern`. Every call site `cyxwiz_f(args)` of
  the C file is `invoke X (.cyxwiz_f args)`, which runs the library and appends
  the call with its result to the trace.
* The constants of `cyxwiz/types.h` are a parameter `Header`.
-/

namespace CyxwizFfi

/-! ## Machine model -/

/-- A C pointer. -/
abbrev Ptr := Nat

/-- The null pointer. -/
def NULL : Ptr := 0

/-- Number of values of `size_t` (64-bit targets). -/
def SIZE_RANGE : Nat := 2 ^ 64

/-- Constants declared by the header `cyxwiz/types.h`, which the binding
includes and which is not part of the file: the enumerators of
`cyxwiz_error_t` that the binding names, the remaining enumerators, the length
of a node id and the transport type tag. -/
structure Header where
  CYXWIZ_OK : Int
  CYXWIZ_ERR_NOMEM : Int
  CYXWIZ_ERR_INVALID : Int
  CYXWIZ_ERR_CRYPTO : Int
  CYXWIZ_ERR_REST : List Int
  CYXWIZ_NODE_ID_LEN : Nat
  CYXWIZ_TRANSPORT_UDP : Int

/-- All enumerators of `cyxwiz_error_t`. -/
def Header.enumeration (H : Header) : List Int :=
  H.CYXWIZ_OK :: H.CYXWIZ_ERR_NOMEM :: H.CYXWIZ_ERR_INVALID :: H.CYXWIZ_ERR_CRYPTO ::
    H.CYXWIZ_ERR_REST

/-- A call that leaves the binding: into the CyxWiz library, through the
`ops` table of a transport, or into the C runtime (`setenv`, `_putenv_s`).
Struct arguments passed by address (`&id`) are recorded by value; buffers the
callee only receives a pointer to are recorded as the pointer. -/
inductive Call where
  | cyxwiz_crypto_init
  | cyxwiz_transport_create (type : Int)
  | ops_init (t : Ptr)
  | ops_shutdown (t : Ptr)
  | ops_poll (t : Ptr) (timeout_ms : Nat)
  | cyxwiz_transport_destroy (t : Ptr)
  | cyxwiz_transport_set_local_id (t : Ptr) (node_id : List Nat)
  | cyxwiz_transport_is_bootstrap_connected (t : Ptr)
  | cyxwiz_peer_table_create
  | cyxwiz_peer_table_destroy (table : Ptr)
  | cyxwiz_peer_table_count (table : Ptr)
  | cyxwiz_peer_table_connected_count (table : Ptr)
  | cyxwiz_router_create (peers : Ptr) (transport : Ptr) (id : List Nat)
  | cyxwiz_router_destroy (router : Ptr)
  | cyxwiz_router_start (router : Ptr)
  | cyxwiz_router_stop (router : Ptr)
  | cyxwiz_router_poll (router : Ptr) (now_ms : Nat)
  | cyxwiz_router_send (router : Ptr) (dest_id : List Nat) (data : Ptr) (len : Nat)
  | cyxwiz_dht_create (router : Ptr) (id : List Nat)
  | cyxwiz_dht_destroy (dht : Ptr)
  | cyxwiz_dht_poll (dht : Ptr) (now_ms : Nat)
  | cyxwiz_dht_add_node (dht : Ptr) (id : List Nat)
  | cyxwiz_discovery_create (peers : Ptr) (transport : Ptr) (id : List Nat)
  | cyxwiz_discovery_destroy (discovery : Ptr)
  | cyxwiz_discovery_start (discovery : Ptr)
  | cyxwiz_discovery_stop (discovery : Ptr)
  | cyxwiz_discovery_poll (discovery : Ptr) (now_ms : Nat)
  | cyxwiz_discovery_set_dht (discovery : Ptr) (dht : Ptr)
  | cyxwiz_onion_create (router : Ptr) (id : List Nat)
  | cyxwiz_onion_destroy (onion : Ptr)
  | cyxwiz_onion_poll (onion : Ptr) (now_ms : Nat)
  | cyxwiz_onion_send_to (onion : Ptr) (dest_id : List Nat) (data : Ptr) (len : Nat)
  | cyxwiz_onion_get_pubkey (onion : Ptr) (pubkey_out : Ptr)
  | cyxwiz_onion_add_peer_key (onion : Ptr) (id : List Nat) (pubkey : Ptr)
  | cyxwiz_onion_set_hop_count (onion : Ptr) (hops : Nat)
  | cyxwiz_onion_get_hop_count (onion : Ptr)
  | cyxwiz_onion_circuit_count (onion : Ptr)
  | cyxwiz_onion_peer_key_count (onion : Ptr)
  | cyxwiz_onion_enable_cover_traffic (onion : Ptr) (enable : Bool)
  | cyxwiz_onion_cover_traffic_enabled (onion : Ptr)
  | cyxwiz_node_id_random
  | cyxwiz_time_ms
  | cyxwiz_strerror (error_code : Int)
  | setenv (name : String) (value : List Nat) (overwrite : Int)
  | _putenv_s (name : String) (value : List Nat)
  deriving DecidableEq, Repr

/-- What a call gives back: the returned value (`val`: an error code, a count,
or a C boolean), the object stored through a `T **` parameter (`out`), and the
bytes stored through a byte-buffer or struct parameter (`bytes`). -/
structure Ret where
  val : Int
  out : Ptr
  bytes : List Nat
  deriving DecidableEq, Repr

/-- The result of a call that returns nothing. -/
def Ret.void : Ret := ⟨0, 0, []⟩

/-- The process environment: variable name and value (a byte string). -/
abbrev Env := List (String × List Nat)

/-- The function-pointer members of `cyxwiz_transport_ops_t` that the binding
tests; `true` is a non-null function pointer. -/
structure cyxwiz_transport_ops_t where
  init : Bool
  shutdown : Bool
  poll : Bool
  deriving DecidableEq, Repr

/-- The code the binding links against, over a library state `σ`.
`exec` runs a library call: it may read the environment and byte memory and
changes only the library state. `transport_ops t` is the `ops` member of the
transport object `t` (`none` for a null `ops`). `malloc heap size` is the C
allocator: the block it returns given the live blocks, `NULL` on failure. -/
structure Extern (σ : Type) where
  exec : σ → Env → (Ptr → Nat) → Call → Ret × σ
  transport_ops : σ → Ptr → Option cyxwiz_transport_ops_t
  malloc : List Ptr → Nat → Ptr

/-- Machine state seen by the binding. -/
structure World (σ : Type) where
  lib : σ
  env : Env
  heap : List Ptr
  bytes : Ptr → Nat
  slots : Ptr → Ptr
  calls : List (Call × Ret)

variable {σ : Type}

/-- Run a library call and record it in the trace. -/
def invoke (X : Extern σ) (c : Call) (w : World σ) : Ret × World σ :=
  let r := X.exec w.lib w.env w.bytes c
  (r.1, { w with lib := r.2, calls := w.calls ++ [(c, r.1)] })

/-- Read `n` bytes of memory starting at `p`. -/
def read (mem : Ptr → Nat) (p : Ptr) (n : Nat) : List Nat :=
  (List.range n).map (fun i => mem (p + i))

/-- Memory after `memcpy(dst, src, n)` where `src` is a local array. -/
def memcpy (mem : Ptr → Nat) (dst : Ptr) (src : List Nat) (n : Nat) : Ptr → Nat :=
  fun a => if dst ≤ a ∧ a < dst + n then src.getD (a - dst) 0 else mem a

/-- Memory after `*out = p` for a `void **out`. -/
def store (slots : Ptr → Ptr) (out : Ptr) (p : Ptr) : Ptr → Ptr :=
  fun a => if a = out then p else slots a

/-- The C string held by a byte array: the bytes before the first NUL. -/
def cstring (buf : List Nat) : List Nat :=
  buf.takeWhile (fun b => b ≠ 0)

/-- Value of an environment variable. -/
def getenv : Env → String → Option (List Nat)
  | [], _ => none
  | (n, v) :: t, name => if n = name then some v else getenv t name

/-- Environment with `name` removed. -/
def unsetenv : Env → String → Env
  | [], _ => []
  | (n, v) :: t, name => if n = name then unsetenv t name else (n, v) :: unsetenv t name

/-- POSIX `setenv(name, value, overwrite)` on the environment (reads `value`
as a C string; assumed to succeed, the binding ignores its result). -/
def setenv (env : Env) (name : String) (value : List Nat) (overwrite : Int) : Env :=
  if overwrite = 0 ∧ (getenv env name).isSome then env
  else (name, cstring value) :: unsetenv env name

/-- Windows `_putenv_s(name, value)`: an empty value removes the variable. -/
def _putenv_s (env : Env) (name : String) (value : List Nat) : Env :=
  if cstring value = [] then unsetenv env name
  else (name, cstring value) :: unsetenv env name

/-- Record a C-runtime call in the trace. -/
def record (c : Call) (w : World σ) : World σ :=
  { w with calls := w.calls ++ [(c, Ret.void)] }

/-! ## Initialization -/

/-- `cyxwiz_ffi_init`; `has_crypto` is `CYXWIZ_HAS_CRYPTO`. -/
def cyxwiz_ffi_init (H : Header) (X : Extern σ) (has_crypto : Bool) (w : World σ) :
    Int × World σ :=
  if has_crypto then
    let r := invoke X .cyxwiz_crypto_init w
    let err := r.1.val
    if err ≠ H.CYXWIZ_OK then (err, r.2) else (H.CYXWIZ_OK, r.2)
  else (H.CYXWIZ_OK, w)

/-- `cyxwiz_ffi_shutdown`. -/
def cyxwiz_ffi_shutdown (w : World σ) : World σ := w

/-! ## Transport -/

/-- The part of `cyxwiz_ffi_transport_create` after the bootstrap block:
create the UDP transport, run its `init` hook, store the handle. -/
def transport_create_tail (H : Header) (X : Extern σ) (out : Ptr) (w : World σ) :
    Int × World σ :=
  let rc := invoke X (.cyxwiz_transport_create H.CYXWIZ_TRANSPORT_UDP) w
  let err := rc.1.val
  if err ≠ H.CYXWIZ_OK then (err, rc.2)
  else
    let transport := rc.1.out
    let has_init : Bool :=
      match X.transport_ops rc.2.lib transport with
      | some ops => ops.init
      | none => false
    if has_init then
      let ri := invoke X (.ops_init transport) rc.2
      let err := ri.1.val
      if err ≠ H.CYXWIZ_OK then
        let rd := invoke X (.cyxwiz_transport_destroy transport) ri.2
        (err, rd.2)
      else (H.CYXWIZ_OK, { ri.2 with slots := store ri.2.slots out transport })
    else (H.CYXWIZ_OK, { rc.2 with slots := store rc.2.slots out transport })

/-- The body of the bootstrap block of `cyxwiz_ffi_transport_create` once
`malloc` has returned the block `bootstrap_str`: copy, terminate, set the
environment variable, free. `win32` is `_WIN32`. -/
def set_bootstrap (win32 : Bool) (bootstrap_str : Ptr) (bootstrap : Ptr)
    (bootstrap_len : Nat) (w : World σ) : World σ :=
  let wm : World σ := { w with heap := bootstrap_str :: w.heap }
  let buf : List Nat := read wm.bytes bootstrap bootstrap_len ++ [0]
  let we : World σ :=
    if win32 then
      record (._putenv_s "CYXWIZ_BOOTSTRAP" (cstring buf))
        { wm with env := _putenv_s wm.env "CYXWIZ_BOOTSTRAP" buf }
    else
      record (.setenv "CYXWIZ_BOOTSTRAP" (cstring buf) 1)
        { wm with env := setenv wm.env "CYXWIZ_BOOTSTRAP" buf 1 }
  { we with heap := we.heap.erase bootstrap_str }

/-- `cyxwiz_ffi_transport_create`; `win32` is `_WIN32`. The size passed to
`malloc` is computed in `size_t`. -/
def cyxwiz_ffi_transport_create (H : Header) (X : Extern σ) (win32 : Bool)
    (out : Ptr) (bootstrap : Ptr) (bootstrap_len : Nat) (w : World σ) : Int × World σ :=
  if out = NULL then (H.CYXWIZ_ERR_INVALID, w)
  else if bootstrap ≠ NULL ∧ bootstrap_len > 0 then
    let bootstrap_str := X.malloc w.heap ((bootstrap_len + 1) % SIZE_RANGE)
    if bootstrap_str = NULL then (H.CYXWIZ_ERR_NOMEM, w)
    else
      transport_create_tail H X out (set_bootstrap win32 bootstrap_str bootstrap bootstrap_len w)
  else transport_create_tail H X out w

/-- `cyxwiz_ffi_transport_destroy`. -/
def cyxwiz_ffi_transport_destroy (X : Extern σ) (transport : Ptr) (w : World σ) : World σ :=
  if transport ≠ NULL then
    let t := transport
    let has_shutdown : Bool :=
      match X.transport_ops w.lib t with
      | some ops => ops.shutdown
      | none => false
    let w1 := if has_shutdown then (invoke X (.ops_shutdown t) w).2 else w
    (invoke X (.cyxwiz_transport_destroy t) w1).2
  else w

/-- `cyxwiz_ffi_transport_poll`. -/
def cyxwiz_ffi_transport_poll (H : Header) (X : Extern σ) (transport : Ptr)
    (timeout_ms : Nat) (w : World σ) : Int × World σ :=
  if transport = NULL then (H.CYXWIZ_ERR_INVALID, w)
  else
    let t := transport
    let has_poll : Bool :=
      match X.transport_ops w.lib t with
      | some ops => ops.poll
      | none => false
    if has_poll then
      let r := invoke X (.ops_poll t timeout_ms) w
      (r.1.val, r.2)
    else (H.CYXWIZ_OK, w)

/-- `cyxwiz_ffi_transport_set_local_id`. -/
def cyxwiz_ffi_transport_set_local_id (H : Header) (X : Extern σ) (transport : Ptr)
    (id : Ptr) (w : World σ) : Int × World σ :=
  if transport = NULL ∨ id = NULL then (H.CYXWIZ_ERR_INVALID, w)
  else
    let t := transport
    let node_id := read w.bytes id H.CYXWIZ_NODE_ID_LEN
    let r := invoke X (.cyxwiz_transport_set_local_id t node_id) w
    (H.CYXWIZ_OK, r.2)

/-- `cyxwiz_ffi_transport_is_bootstrap_connected`. -/
def cyxwiz_ffi_transport_is_bootstrap_connected (X : Extern σ) (transport : Ptr)
    (w : World σ) : Int × World σ :=
  if transport = NULL then (0, w)
  else
    let r := invoke X (.cyxwiz_transport_is_bootstrap_connected transport) w
    (if r.1.val ≠ 0 then 1 else 0, r.2)

/-! ## Peer table -/

/-- `cyxwiz_ffi_peer_table_create`. -/
def cyxwiz_ffi_peer_table_create (H : Header) (X : Extern σ) (out : Ptr) (w : World σ) :
    Int × World σ :=
  if out = NULL then (H.CYXWIZ_ERR_INVALID, w)
  else
    let r := invoke X .cyxwiz_peer_table_create w
    let err := r.1.val
    if err ≠ H.CYXWIZ_OK then (err, r.2)
    else (H.CYXWIZ_OK, { r.2 with slots := store r.2.slots out r.1.out })

/-- `cyxwiz_ffi_peer_table_destroy`. -/
def cyxwiz_ffi_peer_table_destroy (X : Extern σ) (table : Ptr) (w : World σ) : World σ :=
  if table ≠ NULL then (invoke X (.cyxwiz_peer_table_destroy table) w).2 else w

/-- `cyxwiz_ffi_peer_table_count`. -/
def cyxwiz_ffi_peer_table_count (X : Extern σ) (table : Ptr) (w : World σ) : Int × World σ :=
  if table = NULL then (0, w)
  else
    let r := invoke X (.cyxwiz_peer_table_count table) w
    (r.1.val, r.2)

/-- `cyxwiz_ffi_peer_table_connected_count`. -/
def cyxwiz_ffi_peer_table_connected_count (X : Extern σ) (table : Ptr) (w : World σ) :
    Int × World σ :=
  if table = NULL then (0, w)
  else
    let r := invoke X (.cyxwiz_peer_table_connected_count table) w
    (r.1.val, r.2)

/-! ## Router -/

/-- `cyxwiz_ffi_router_create`. -/
def cyxwiz_ffi_router_create (H : Header) (X : Extern σ) (out : Ptr) (peers : Ptr)
    (transport : Ptr) (local_id : Ptr) (w : World σ) : Int × World σ :=
  if out = NULL ∨ peers = NULL ∨ transport = NULL ∨ local_id = NULL then
    (H.CYXWIZ_ERR_INVALID, w)
  else
    let id := read w.bytes local_id H.CYXWIZ_NODE_ID_LEN
    let r := invoke X (.cyxwiz_router_create peers transport id) w
    let err := r.1.val
    if err ≠ H.CYXWIZ_OK then (err, r.2)
    else (H.CYXWIZ_OK, { r.2 with slots := store r.2.slots out r.1.out })

/-- `cyxwiz_ffi_router_destroy`. -/
def cyxwiz_ffi_router_destroy (X : Extern σ) (router : Ptr) (w : World σ) : World σ :=
  if router ≠ NULL then (invoke X (.cyxwiz_router_destroy router) w).2 else w

/-- `cyxwiz_ffi_router_start`. -/
def cyxwiz_ffi_router_start (H : Header) (X : Extern σ) (router : Ptr) (w : World σ) :
    Int × World σ :=
  if router = NULL then (H.CYXWIZ_ERR_INVALID, w)
  else
    let r := invoke X (.cyxwiz_router_start router) w
    (r.1.val, r.2)

/-- `cyxwiz_ffi_router_stop`. -/
def cyxwiz_ffi_router_stop (H : Header) (X : Extern σ) (router : Ptr) (w : World σ) :
    Int × World σ :=
  if router = NULL then (H.CYXWIZ_ERR_INVALID, w)
  else
    let r := invoke X (.cyxwiz_router_stop router) w
    (r.1.val, r.2)

/-- `cyxwiz_ffi_router_poll`. -/
def cyxwiz_ffi_router_poll (H : Header) (X : Extern σ) (router : Ptr) (now_ms : Nat)
    (w : World σ) : Int × World σ :=
  if router = NULL then (H.CYXWIZ_ERR_INVALID, w)
  else
    let r := invoke X (.cyxwiz_router_poll router now_ms) w
    (r.1.val, r.2)

/-- `cyxwiz_ffi_router_send`. -/
def cyxwiz_ffi_router_send (H : Header) (X : Extern σ) (router : Ptr) (dest : Ptr)
    (data : Ptr) (len : Nat) (w : World σ) : Int × World σ :=
  if router = NULL ∨ dest = NULL ∨ data = NULL then (H.CYXWIZ_ERR_INVALID, w)
  else
    let dest_id := read w.bytes dest H.CYXWIZ_NODE_ID_LEN
    let r := invoke X (.cyxwiz_router_send router dest_id data len) w
    (r.1.val, r.2)

/-! ## DHT -/

/-- `cyxwiz_ffi_dht_create`. -/
def cyxwiz_ffi_dht_create (H : Header) (X : Extern σ) (out : Ptr) (router : Ptr)
    (local_id : Ptr) (w : World σ) : Int × World σ :=
  if out = NULL ∨ router = NULL ∨ local_id = NULL then (H.CYXWIZ_ERR_INVALID, w)
  else
    let id := read w.bytes local_id H.CYXWIZ_NODE_ID_LEN
    let r := invoke X (.cyxwiz_dht_create router id) w
    let err := r.1.val
    if err ≠ H.CYXWIZ_OK then (err, r.2)
    else (H.CYXWIZ_OK, { r.2 with slots := store r.2.slots out r.1.out })

/-- `cyxwiz_ffi_dht_destroy`. -/
def cyxwiz_ffi_dht_destroy (X : Extern σ) (dht : Ptr) (w : World σ) : World σ :=
  if dht ≠ NULL then (invoke X (.cyxwiz_dht_destroy dht) w).2 else w

/-- `cyxwiz_ffi_dht_poll`. -/
def cyxwiz_ffi_dht_poll (H : Header) (X : Extern σ) (dht : Ptr) (now_ms : Nat)
    (w : World σ) : Int × World σ :=
  if dht = NULL then (H.CYXWIZ_ERR_INVALID, w)
  else
    let r := invoke X (.cyxwiz_dht_poll dht now_ms) w
    (r.1.val, r.2)

/-- `cyxwiz_ffi_dht_add_node`. -/
def cyxwiz_ffi_dht_add_node (H : Header) (X : Extern σ) (dht : Ptr) (node_id : Ptr)
    (w : World σ) : Int × World σ :=
  if dht = NULL ∨ node_id = NULL then (H.CYXWIZ_ERR_INVALID, w)
  else
    let id := read w.bytes node_id H.CYXWIZ_NODE_ID_LEN
    let r := invoke X (.cyxwiz_dht_add_node dht id) w
    (r.1.val, r.2)

/-! ## Discovery -/

/-- `cyxwiz_ffi_discovery_create`. -/
def cyxwiz_ffi_discovery_create (H : Header) (X : Extern σ) (out : Ptr) (peers : Ptr)
    (transport : Ptr) (local_id : Ptr) (w : World σ) : Int × World σ :=
  if out = NULL ∨ peers = NULL ∨ transport = NULL ∨ local_id = NULL then
    (H.CYXWIZ_ERR_INVALID, w)
  else
    let id := read w.bytes local_id H.CYXWIZ_NODE_ID_LEN
    let r := invoke X (.cyxwiz_discovery_create peers transport id) w
    let err := r.1.val
    if err ≠ H.CYXWIZ_OK then (err, r.2)
    else (H.CYXWIZ_OK, { r.2 with slots := store r.2.slots out r.1.out })

/-- `cyxwiz_ffi_discovery_destroy`. -/
def cyxwiz_ffi_discovery_destroy (X : Extern σ) (discovery : Ptr) (w : World σ) : World σ :=
  if discovery ≠ NULL then (invoke X (.cyxwiz_discovery_destroy discovery) w).2 else w

/-- `cyxwiz_ffi_discovery_start`. -/
def cyxwiz_ffi_discovery_start (H : Header) (X : Extern σ) (discovery : Ptr) (w : World σ) :
    Int × World σ :=
  if discovery = NULL then (H.CYXWIZ_ERR_INVALID, w)
  else
    let r := invoke X (.cyxwiz_discovery_start discovery) w
    (r.1.val, r.2)

/-- `cyxwiz_ffi_discovery_stop`. -/
def cyxwiz_ffi_discovery_stop (H : Header) (X : Extern σ) (discovery : Ptr) (w : World σ) :
    Int × World σ :=
  if discovery = NULL then (H.CYXWIZ_ERR_INVALID, w)
  else
    let r := invoke X (.cyxwiz_discovery_stop discovery) w
    (r.1.val, r.2)

/-- `cyxwiz_ffi_discovery_poll`. -/
def cyxwiz_ffi_discovery_poll (H : Header) (X : Extern σ) (discovery : Ptr) (now_ms : Nat)
    (w : World σ) : Int × World σ :=
  if discovery = NULL then (H.CYXWIZ_ERR_INVALID, w)
  else
    let r := invoke X (.cyxwiz_discovery_poll discovery now_ms) w
    (r.1.val, r.2)

/-- `cyxwiz_ffi_discovery_set_dht`. -/
def cyxwiz_ffi_discovery_set_dht (H : Header) (X : Extern σ) (discovery : Ptr) (dht : Ptr)
    (w : World σ) : Int × World σ :=
  if discovery = NULL then (H.CYXWIZ_ERR_INVALID, w)
  else
    let r := invoke X (.cyxwiz_discovery_set_dht discovery dht) w
    (H.CYXWIZ_OK, r.2)

/-! ## Onion routing, `CYXWIZ_HAS_CRYPTO` defined -/

namespace Crypto

/-- `cyxwiz_ffi_onion_create` (crypto build). -/
def cyxwiz_ffi_onion_create (H : Header) (X : Extern σ) (out : Ptr) (router : Ptr)
    (local_id : Ptr) (w : World σ) : Int × World σ :=
  if out = NULL ∨ router = NULL ∨ local_id = NULL then (H.CYXWIZ_ERR_INVALID, w)
  else
    let id := read w.bytes local_id H.CYXWIZ_NODE_ID_LEN
    let r := invoke X (.cyxwiz_onion_create router id) w
    let err := r.1.val
    if err ≠ H.CYXWIZ_OK then (err, r.2)
    else (H.CYXWIZ_OK, { r.2 with slots := store r.2.slots out r.1.out })

/-- `cyxwiz_ffi_onion_destroy` (crypto build). -/
def cyxwiz_ffi_onion_destroy (X : Extern σ) (onion : Ptr) (w : World σ) : World σ :=
  if onion ≠ NULL then (invoke X (.cyxwiz_onion_destroy onion) w).2 else w

/-- `cyxwiz_ffi_onion_poll` (crypto build). -/
def cyxwiz_ffi_onion_poll (H : Header) (X : Extern σ) (onion : Ptr) (now_ms : Nat)
    (w : World σ) : Int × World σ :=
  if onion = NULL then (H.CYXWIZ_ERR_INVALID, w)
  else
    let r := invoke X (.cyxwiz_onion_poll onion now_ms) w
    (r.1.val, r.2)

/-- `cyxwiz_ffi_onion_send` (crypto build). -/
def cyxwiz_ffi_onion_send (H : Header) (X : Extern σ) (onion : Ptr) (dest : Ptr)
    (data : Ptr) (len : Nat) (w : World σ) : Int × World σ :=
  if onion = NULL ∨ dest = NULL ∨ data = NULL then (H.CYXWIZ_ERR_INVALID, w)
  else
    let dest_id := read w.bytes dest H.CYXWIZ_NODE_ID_LEN
    let r := invoke X (.cyxwiz_onion_send_to onion dest_id data len) w
    (r.1.val, r.2)

/-- `cyxwiz_ffi_onion_get_pubkey` (crypto build); the library writes the key
through `pubkey_out`. -/
def cyxwiz_ffi_onion_get_pubkey (H : Header) (X : Extern σ) (onion : Ptr) (pubkey_out : Ptr)
    (w : World σ) : Int × World σ :=
  if onion = NULL ∨ pubkey_out = NULL then (H.CYXWIZ_ERR_INVALID, w)
  else
    let r := invoke X (.cyxwiz_onion_get_pubkey onion pubkey_out) w
    (r.1.val, { r.2 with bytes := memcpy r.2.bytes pubkey_out r.1.bytes r.1.bytes.length })

/-- `cyxwiz_ffi_onion_add_peer_key` (crypto build). -/
def cyxwiz_ffi_onion_add_peer_key (H : Header) (X : Extern σ) (onion : Ptr) (peer_id : Ptr)
    (pubkey : Ptr) (w : World σ) : Int × World σ :=
  if onion = NULL ∨ peer_id = NULL ∨ pubkey = NULL then (H.CYXWIZ_ERR_INVALID, w)
  else
    let id := read w.bytes peer_id H.CYXWIZ_NODE_ID_LEN
    let r := invoke X (.cyxwiz_onion_add_peer_key onion id pubkey) w
    (r.1.val, r.2)

/-- `cyxwiz_ffi_onion_set_hops` (crypto build); `hops` is a `uint8_t`. -/
def cyxwiz_ffi_onion_set_hops (H : Header) (X : Extern σ) (onion : Ptr) (hops : Nat)
    (w : World σ) : Int × World σ :=
  if onion = NULL then (H.CYXWIZ_ERR_INVALID, w)
  else
    let r := invoke X (.cyxwiz_onion_set_hop_count onion hops) w
    (H.CYXWIZ_OK, r.2)

/-- `cyxwiz_ffi_onion_get_hops` (crypto build); the result is a `uint8_t`. -/
def cyxwiz_ffi_onion_get_hops (X : Extern σ) (onion : Ptr) (w : World σ) : Int × World σ :=
  if onion = NULL then (0, w)
  else
    let r := invoke X (.cyxwiz_onion_get_hop_count onion) w
    (r.1.val % 256, r.2)

/-- `cyxwiz_ffi_onion_circuit_count` (crypto build). -/
def cyxwiz_ffi_onion_circuit_count (X : Extern σ) (onion : Ptr) (w : World σ) :
    Int × World σ :=
  if onion = NULL then (0, w)
  else
    let r := invoke X (.cyxwiz_onion_circuit_count onion) w
    (r.1.val, r.2)

/-- `cyxwiz_ffi_onion_peer_key_count` (crypto build). -/
def cyxwiz_ffi_onion_peer_key_count (X : Extern σ) (onion : Ptr) (w : World σ) :
    Int × World σ :=
  if onion = NULL then (0, w)
  else
    let r := invoke X (.cyxwiz_onion_peer_key_count onion) w
    (r.1.val, r.2)

/-- `cyxwiz_ffi_onion_enable_cover_traffic` (crypto build); `enable` is an
`int32_t`. -/
def cyxwiz_ffi_onion_enable_cover_traffic (X : Extern σ) (onion : Ptr) (enable : Int)
    (w : World σ) : World σ :=
  if onion ≠ NULL then
    (invoke X (.cyxwiz_onion_enable_cover_traffic onion (decide (enable ≠ 0))) w).2
  else w

/-- `cyxwiz_ffi_onion_cover_traffic_enabled` (crypto build). -/
def cyxwiz_ffi_onion_cover_traffic_enabled (X : Extern σ) (onion : Ptr) (w : World σ) :
    Int × World σ :=
  if onion = NULL then (0, w)
  else
    let r := invoke X (.cyxwiz_onion_cover_traffic_enabled onion) w
    (if r.1.val ≠ 0 then 1 else 0, r.2)

end Crypto

/-! ## Onion routing, `CYXWIZ_HAS_CRYPTO` undefined -/

namespace Stub

/-- `cyxwiz_ffi_onion_create` (stub). -/
def cyxwiz_ffi_onion_create (H : Header) (_out : Ptr) (_router : Ptr) (_local_id : Ptr)
    (w : World σ) : Int × World σ :=
  (H.CYXWIZ_ERR_CRYPTO, w)

/-- `cyxwiz_ffi_onion_destroy` (stub). -/
def cyxwiz_ffi_onion_destroy (_onion : Ptr) (w : World σ) : World σ := w

/-- `cyxwiz_ffi_onion_poll` (stub). -/
def cyxwiz_ffi_onion_poll (H : Header) (_onion : Ptr) (_now_ms : Nat) (w : World σ) :
    Int × World σ :=
  (H.CYXWIZ_ERR_CRYPTO, w)

/-- `cyxwiz_ffi_onion_send` (stub). -/
def cyxwiz_ffi_onion_send (H : Header) (_onion : Ptr) (_dest : Ptr) (_data : Ptr) (_len : Nat)
    (w : World σ) : Int × World σ :=
  (H.CYXWIZ_ERR_CRYPTO, w)

/-- `cyxwiz_ffi_onion_get_pubkey` (stub). -/
def cyxwiz_ffi_onion_get_pubkey (H : Header) (_onion : Ptr) (_pubkey_out : Ptr)
    (w : World σ) : Int × World σ :=
  (H.CYXWIZ_ERR_CRYPTO, w)

/-- `cyxwiz_ffi_onion_add_peer_key` (stub). -/
def cyxwiz_ffi_onion_add_peer_key (H : Header) (_onion : Ptr) (_peer_id : Ptr) (_pubkey : Ptr)
    (w : World σ) : Int × World σ :=
  (H.CYXWIZ_ERR_CRYPTO, w)

/-- `cyxwiz_ffi_onion_set_hops` (stub). -/
def cyxwiz_ffi_onion_set_hops (H : Header) (_onion : Ptr) (_hops : Nat) (w : World σ) :
    Int × World σ :=
  (H.CYXWIZ_ERR_CRYPTO, w)

/-- `cyxwiz_ffi_onion_get_hops` (stub). -/
def cyxwiz_ffi_onion_get_hops (_onion : Ptr) (w : World σ) : Int × World σ := (0, w)

/-- `cyxwiz_ffi_onion_circuit_count` (stub). -/
def cyxwiz_ffi_onion_circuit_count (_onion : Ptr) (w : World σ) : Int × World σ := (0, w)

/-- `cyxwiz_ffi_onion_peer_key_count` (stub). -/
def cyxwiz_ffi_onion_peer_key_count (_onion : Ptr) (w : World σ) : Int × World σ := (0, w)

/-- `cyxwiz_ffi_onion_enable_cover_traffic` (stub). -/
def cyxwiz_ffi_onion_enable_cover_traffic (_onion : Ptr) (_enable : Int) (w : World σ) :
    World σ := w

/-- `cyxwiz_ffi_onion_cover_traffic_enabled` (stub). -/
def cyxwiz_ffi_onion_cover_traffic_enabled (_onion : Ptr) (w : World σ) : Int × World σ :=
  (0, w)

end Stub

/-! ## Utilities -/

/-- `cyxwiz_ffi_generate_node_id`; `cyxwiz_node_id_random(&id)` fills the
local `id`, whose bytes are then copied out. -/
def cyxwiz_ffi_generate_node_id (H : Header) (X : Extern σ) (out : Ptr) (w : World σ) :
    Int × World σ :=
  if out = NULL then (H.CYXWIZ_ERR_INVALID, w)
  else
    let r := invoke X .cyxwiz_node_id_random w
    let id := r.1.bytes
    (H.CYXWIZ_OK, { r.2 with bytes := memcpy r.2.bytes out id H.CYXWIZ_NODE_ID_LEN })

/-- `cyxwiz_ffi_time_ms`. -/
def cyxwiz_ffi_time_ms (X : Extern σ) (w : World σ) : Int × World σ :=
  let r := invoke X .cyxwiz_time_ms w
  (r.1.val, r.2)

/-- `cyxwiz_ffi_strerror`; the result is the returned `const char *`. -/
def cyxwiz_ffi_strerror (X : Extern σ) (error_code : Int) (w : World σ) : Ptr × World σ :=
  let r := invoke X (.cyxwiz_strerror error_code) w
  (r.1.out, r.2)

/-! ## Resources observed through the trace -/

/-- Effect of one recorded call on the transport objects that are alive: a
`cyxwiz_transport_create` that returned `CYXWIZ_OK` brings its object to life,
`cyxwiz_transport_destroy` ends the life of its argument. -/
def live_step (H : Header) (live : List Ptr) (e : Call × Ret) : List Ptr :=
  match e.1 with
  | .cyxwiz_transport_create _ => if e.2.val = H.CYXWIZ_OK then e.2.out :: live else live
  | .cyxwiz_transport_destroy t => live.erase t
  | _ => live

/-- Transport objects alive after a trace. -/
def live_transports (H : Header) (calls : List (Call × Ret)) : List Ptr :=
  calls.foldl (live_step H) []

/-- What the bootstrap block of `cyxwiz_ffi_transport_create` records when it
sets the variable to `value`. -/
def bootstrap_call (win32 : Bool) (value : List Nat) : Call × Ret :=
  (if win32 then Call._putenv_s "CYXWIZ_BOOTSTRAP" value
    else Call.setenv "CYXWIZ_BOOTSTRAP" value 1, Ret.void)

/-- The calls recorded in a trace, without their results. -/
def called (calls : List (Call × Ret)) : List Call :=
  calls.map (fun e => e.1)

/-! ## The onion layer, as the design describes it -/

/-- Modelled from the spec: the state behind an onion handle, which the
wrapped library owns and `cyxwiz_ffi.c` never looks into (design §4.3: a
preferred circuit length, a cover-traffic generator that is on or off, the
circuits and the registered peer keys that the two counters report). -/
structure cyxwiz_onion_ctx_t where
  hop_count : Nat
  cover_traffic : Bool
  circuit_count : Nat
  peer_key_count : Nat
  deriving DecidableEq, Repr

/-- Modelled from the spec: the bound the onion layer puts on the preferred
circuit length, "a sane minimum, e.g. ≥1, and maximum, e.g. ≤8". -/
def bound_hop_count (n : Nat) : Nat := max 1 (min 8 n)

/-- Modelled from the spec: replace the context behind one handle. -/
def set_ctx (s : Ptr → cyxwiz_onion_ctx_t) (onion : Ptr) (c : cyxwiz_onion_ctx_t) :
    Ptr → cyxwiz_onion_ctx_t :=
  fun p => if p = onion then c else s p

/-- Modelled from the spec: the onion-layer functions of the wrapped library
that configure and observe a context (design §4.3). `setHopCount` stores the
bounded length, `enableCoverTraffic` switches the generator and touches
nothing else, `addPeerKey` records one more key, the observers read the
context. Calls outside the onion configuration succeed without effect. -/
def onion_exec (H : Header) (s : Ptr → cyxwiz_onion_ctx_t) (_env : Env) (_mem : Ptr → Nat) :
    Call → Ret × (Ptr → cyxwiz_onion_ctx_t)
  | .cyxwiz_onion_set_hop_count onion hops =>
      (Ret.void, set_ctx s onion { s onion with hop_count := bound_hop_count hops })
  | .cyxwiz_onion_get_hop_count onion => (⟨(s onion).hop_count, 0, []⟩, s)
  | .cyxwiz_onion_enable_cover_traffic onion enable =>
      (Ret.void, set_ctx s onion { s onion with cover_traffic := enable })
  | .cyxwiz_onion_cover_traffic_enabled onion =>
      (⟨if (s onion).cover_traffic then 1 else 0, 0, []⟩, s)
  | .cyxwiz_onion_circuit_count onion => (⟨(s onion).circuit_count, 0, []⟩, s)
  | .cyxwiz_onion_peer_key_count onion => (⟨(s onion).peer_key_count, 0, []⟩, s)
  | .cyxwiz_onion_add_peer_key onion _ _ =>
      (⟨H.CYXWIZ_OK, 0, []⟩,
        set_ctx s onion { s onion with peer_key_count := (s onion).peer_key_count + 1 })
  | _ => (⟨H.CYXWIZ_OK, 0, []⟩, s)

/-- Modelled from the spec: the wrapped library reduced to its onion layer
(`onion_exec`); transports carry no `ops` table and `malloc` fails. -/
def onion_layer (H : Header) : Extern (Ptr → cyxwiz_onion_ctx_t) where
  exec := onion_exec H
  transport_ops := fun _ _ => none
  malloc := fun _ _ => NULL

/-! ## Concrete instances used to evaluate the binding -/

/-- A header instance: success is `0`, the error enumerators are distinct
negative numbers, a node id has 32 bytes. -/
def hdr : Header where
  CYXWIZ_OK := 0
  CYXWIZ_ERR_NOMEM := -1
  CYXWIZ_ERR_INVALID := -2
  CYXWIZ_ERR_CRYPTO := -4
  CYXWIZ_ERR_REST := [-3, -5, -6, -7, -8]
  CYXWIZ_NODE_ID_LEN := 32
  CYXWIZ_TRANSPORT_UDP := 0

/-- A library whose behaviour is fixed by a script: `cyxwiz_transport_create`
and `cyxwiz_router_create` return `create_code` and the object `7`, the `init`
hook returns `init_code`, `cyxwiz_node_id_random` produces the bytes
`1, 2, 3, ...`, every other call returns `0`. The state counts the calls.
Every transport has a full `ops` table; `malloc` returns `block`. -/
def scripted (create_code init_code : Int) (block : Ptr) : Extern Nat where
  exec := fun s _ _ c =>
    match c with
    | .cyxwiz_transport_create _ => (⟨create_code, 7, []⟩, s + 1)
    | .cyxwiz_router_create _ _ _ => (⟨create_code, 7, []⟩, s + 1)
    | .ops_init _ => (⟨init_code, 0, []⟩, s + 1)
    | .cyxwiz_node_id_random => (⟨0, 0, (List.range 32).map (fun i => i + 1)⟩, s + 1)
    | _ => (⟨0, 0, []⟩, s + 1)
  transport_ops := fun _ _ => some ⟨true, true, true⟩
  malloc := fun _ _ => block

/-- An initial machine state over a library state `s`: empty environment and
heap, zeroed memory, empty trace. -/
def world0 (s : σ) : World σ where
  lib := s
  env := []
  heap := []
  bytes := fun _ => 0
  slots := fun _ => 0
  calls := []

/-- A machine state whose memory holds the three bytes `a`, NUL, `b` at
address 200. -/
def world_boot : World Nat where
  lib := 0
  env := []
  heap := []
  bytes := fun a => if a = 200 then 97 else if a = 202 then 98 else 0
  slots := fun _ => 0
  calls := []

/-- Onion contexts before any configuration: three hops, cover traffic off,
two circuits, five peer keys behind every handle. -/
def ctx0 : Ptr → cyxwiz_onion_ctx_t := fun _ => ⟨3, false, 2, 5⟩

/-! ## Basic facts about the machine model -/

theorem read_length (mem : Ptr → Nat) (p : Ptr) (n : Nat) : (read mem p n).length = n := by
  simp [read]

theorem read_getD (mem : Ptr → Nat) (p : Ptr) (n i : Nat) (h : i < n) :
    (read mem p n).getD i 0 = mem (p + i) := by
  simp [read, List.getD, List.getElem?_map, List.getElem?_range h]

theorem memcpy_inside (mem : Ptr → Nat) (dst : Ptr) (src : List Nat) (n i : Nat) (h : i < n) :
    memcpy mem dst src n (dst + i) = src.getD i 0 := by
  simp [memcpy, h]

theorem memcpy_outside (mem : Ptr → Nat) (dst : Ptr) (src : List Nat) (n a : Nat)
    (h : ¬ (dst ≤ a ∧ a < dst + n)) : memcpy mem dst src n a = mem a := by
  simp only [memcpy, if_neg h]

/-! ## C1: the onion operations of a build without crypto -/

/-- C1 (amended). In the build without `CYXWIZ_HAS_CRYPTO`, for all arguments
(null handles and null output pointers included) the six onion operations that
report an outcome (create, poll, send, get_pubkey, add_peer_key, set_hops)
return `CYXWIZ_ERR_CRYPTO`, the four observers (get_hops, circuit_count,
peer_key_count, cover_traffic_enabled) return `0`, and none of them, nor
destroy or enable_cover_traffic, writes an output or changes any state. -/
theorem stub_onion_operations (H : Header) (w : World σ)
    (out router local_id onion dest data pubkey_out peer_id pubkey : Ptr)
    (now_ms len hops : Nat) (enable : Int) :
    Stub.cyxwiz_ffi_onion_create H out router local_id w = (H.CYXWIZ_ERR_CRYPTO, w) ∧
    Stub.cyxwiz_ffi_onion_poll H onion now_ms w = (H.CYXWIZ_ERR_CRYPTO, w) ∧
    Stub.cyxwiz_ffi_onion_send H onion dest data len w = (H.CYXWIZ_ERR_CRYPTO, w) ∧
    Stub.cyxwiz_ffi_onion_get_pubkey H onion pubkey_out w = (H.CYXWIZ_ERR_CRYPTO, w) ∧
    Stub.cyxwiz_ffi_onion_add_peer_key H onion peer_id pubkey w = (H.CYXWIZ_ERR_CRYPTO, w) ∧
    Stub.cyxwiz_ffi_onion_set_hops H onion hops w = (H.CYXWIZ_ERR_CRYPTO, w) ∧
    Stub.cyxwiz_ffi_onion_get_hops onion w = (0, w) ∧
    Stub.cyxwiz_ffi_onion_circuit_count onion w = (0, w) ∧
    Stub.cyxwiz_ffi_onion_peer_key_count onion w = (0, w) ∧
    Stub.cyxwiz_ffi_onion_cover_traffic_enabled onion w = (0, w) ∧
    Stub.cyxwiz_ffi_onion_destroy onion w = w ∧
    Stub.cyxwiz_ffi_onion_enable_cover_traffic onion enable w = w :=
  ⟨rfl, rfl, rfl, rfl, rfl, rfl, rfl, rfl, rfl, rfl, rfl, rfl⟩

/-- Whatever the header, a stub observer returns the crypto-unavailable code
only if that code is `0`. -/
theorem stub_observer_code (H : Header) (w : World σ) (onion : Ptr)
    (h : H.CYXWIZ_ERR_CRYPTO ≠ 0) :
    (Stub.cyxwiz_ffi_onion_get_hops onion w).1 ≠ H.CYXWIZ_ERR_CRYPTO ∧
    (Stub.cyxwiz_ffi_onion_circuit_count onion w).1 ≠ H.CYXWIZ_ERR_CRYPTO ∧
    (Stub.cyxwiz_ffi_onion_peer_key_count onion w).1 ≠ H.CYXWIZ_ERR_CRYPTO ∧
    (Stub.cyxwiz_ffi_onion_cover_traffic_enabled onion w).1 ≠ H.CYXWIZ_ERR_CRYPTO :=
  ⟨fun e => h e.symm, fun e => h e.symm, fun e => h e.symm, fun e => h e.symm⟩

/-- C1 as stated fails: with the header `hdr`, whose `CYXWIZ_ERR_CRYPTO` is
`-4`, the stub observers called on a null handle return `0`, not the
crypto-unavailable code, while the stub create does return it. -/
theorem stub_observers_return_zero :
    (Stub.cyxwiz_ffi_onion_create hdr NULL NULL NULL (world0 ())).1 = hdr.CYXWIZ_ERR_CRYPTO ∧
    (Stub.cyxwiz_ffi_onion_get_hops NULL (world0 ())).1 ≠ hdr.CYXWIZ_ERR_CRYPTO ∧
    (Stub.cyxwiz_ffi_onion_circuit_count NULL (world0 ())).1 ≠ hdr.CYXWIZ_ERR_CRYPTO ∧
    (Stub.cyxwiz_ffi_onion_peer_key_count NULL (world0 ())).1 ≠ hdr.CYXWIZ_ERR_CRYPTO ∧
    (Stub.cyxwiz_ffi_onion_cover_traffic_enabled NULL (world0 ())).1 ≠ hdr.CYXWIZ_ERR_CRYPTO := by
  refine ⟨rfl, ?_, ?_, ?_, ?_⟩ <;> decide

/-! ## C2: creation with an absent dependency -/

/-- C2. `cyxwiz_ffi_router_create` returns `CYXWIZ_ERR_INVALID` whenever `out`,
`peers`, `transport` or `local_id` is null, and `cyxwiz_ffi_dht_create`
whenever `out`, `router` or `local_id` is null; the machine state comes back
as it was, so the trace has no call of the underlying constructor and `*out`
is not written. -/
theorem create_rejects_absent_dependency (H : Header) (X : Extern σ) (w : World σ)
    (out peers transport router local_id : Ptr) :
    ((out = NULL ∨ peers = NULL ∨ transport = NULL ∨ local_id = NULL) →
      cyxwiz_ffi_router_create H X out peers transport local_id w
        = (H.CYXWIZ_ERR_INVALID, w)) ∧
    ((out = NULL ∨ router = NULL ∨ local_id = NULL) →
      cyxwiz_ffi_dht_create H X out router local_id w = (H.CYXWIZ_ERR_INVALID, w)) := by
  constructor
  · intro h
    simp only [cyxwiz_ffi_router_create, if_pos h]
  · intro h
    simp only [cyxwiz_ffi_dht_create, if_pos h]

/-- C2 at concrete inputs: a router create with a null peer table and a DHT
create with a null router, against a library that counts its calls. -/
theorem create_rejects_absent_dependency_witness :
    cyxwiz_ffi_router_create hdr (scripted 0 0 0) 100 NULL 2 200 (world0 0)
        = (hdr.CYXWIZ_ERR_INVALID, world0 0) ∧
    cyxwiz_ffi_dht_create hdr (scripted 0 0 0) 100 NULL 200 (world0 0)
        = (hdr.CYXWIZ_ERR_INVALID, world0 0) :=
  ⟨(create_rejects_absent_dependency hdr (scripted 0 0 0) (world0 0) 100 NULL 2 NULL 200).1
      (by decide),
   (create_rejects_absent_dependency hdr (scripted 0 0 0) (world0 0) 100 NULL 2 NULL 200).2
      (by decide)⟩

/-! ## C5: sending through the router -/

/-- C5. `cyxwiz_ffi_router_send` returns `CYXWIZ_ERR_INVALID` with the machine
state untouched (no call of the Router) when `router`, `dest` or `data` is
null, whatever `len` is. Otherwise it makes exactly one call,
`cyxwiz_router_send` on the same router, a node id made of the first
`CYXWIZ_NODE_ID_LEN` bytes at `dest`, and the same `data` and `len`, and
returns the code of that call. When `cyxwiz_router_send` returns enumerators
of `cyxwiz_error_t`, the value returned is an enumerator in both cases. -/
theorem router_send_outcome (H : Header) (X : Extern σ) (w : World σ)
    (router dest data : Ptr) (len : Nat) :
    ((router = NULL ∨ dest = NULL ∨ data = NULL) →
      cyxwiz_ffi_router_send H X router dest data len w = (H.CYXWIZ_ERR_INVALID, w)) ∧
    (router ≠ NULL → dest ≠ NULL → data ≠ NULL →
      ∃ dest_id : List Nat,
        dest_id.length = H.CYXWIZ_NODE_ID_LEN ∧
        (∀ i, i < H.CYXWIZ_NODE_ID_LEN → dest_id.getD i 0 = w.bytes (dest + i)) ∧
        (cyxwiz_ffi_router_send H X router dest data len w).1
          = (X.exec w.lib w.env w.bytes (.cyxwiz_router_send router dest_id data len)).1.val ∧
        (cyxwiz_ffi_router_send H X router dest data len w).2.calls
          = w.calls ++ [(.cyxwiz_router_send router dest_id data len,
              (X.exec w.lib w.env w.bytes (.cyxwiz_router_send router dest_id data len)).1)]) ∧
    ((∀ s env mem r d p l,
        (X.exec s env mem (.cyxwiz_router_send r d p l)).1.val ∈ H.enumeration) →
      (cyxwiz_ffi_router_send H X router dest data len w).1 ∈ H.enumeration) := by
  refine ⟨?_, ?_, ?_⟩
  · intro h
    simp only [cyxwiz_ffi_router_send, if_pos h]
  · intro hr hd hp
    have hn : ¬ (router = NULL ∨ dest = NULL ∨ data = NULL) := by
      rintro (h | h | h)
      · exact hr h
      · exact hd h
      · exact hp h
    refine ⟨read w.bytes dest H.CYXWIZ_NODE_ID_LEN, read_length _ _ _,
      fun i hi => read_getD _ _ _ _ hi, ?_, ?_⟩
    · simp only [cyxwiz_ffi_router_send, if_neg hn, invoke]
    · simp only [cyxwiz_ffi_router_send, if_neg hn, invoke]
  · intro hX
    by_cases h : router = NULL ∨ dest = NULL ∨ data = NULL
    · simp only [cyxwiz_ffi_router_send, if_pos h]
      simp [Header.enumeration]
    · simp only [cyxwiz_ffi_router_send, if_neg h, invoke]
      exact hX _ _ _ _ _ _ _

/-- C5 at concrete inputs: a null destination is rejected, and a send with
all three pointers present against the scripted library makes the one
library call and returns its code `0`, an enumerator of `hdr`. -/
theorem router_send_outcome_witness :
    cyxwiz_ffi_router_send hdr (scripted 0 0 0) 5 NULL 300 0 (world0 0)
        = (hdr.CYXWIZ_ERR_INVALID, world0 0) ∧
    (cyxwiz_ffi_router_send hdr (scripted 0 0 0) 5 200 300 4 (world0 0)).1
        ∈ hdr.enumeration := by
  refine ⟨(router_send_outcome hdr (scripted 0 0 0) (world0 0) 5 NULL 300 0).1 (by decide),
    (router_send_outcome hdr (scripted 0 0 0) (world0 0) 5 200 300 4).2.2 ?_⟩
  intro s env mem r d p l
  simp [scripted, hdr, Header.enumeration]

/-! ## C6: generating a node id -/

/-- C6. With distinct enumerators `CYXWIZ_OK` and `CYXWIZ_ERR_INVALID`,
`cyxwiz_ffi_generate_node_id` returns `CYXWIZ_OK` exactly when `out` is not
null and `CYXWIZ_ERR_INVALID` otherwise; on success the `CYXWIZ_NODE_ID_LEN`
bytes at `out` are the bytes of the id that `cyxwiz_node_id_random` produced,
and every byte of memory outside `out[0 .. CYXWIZ_NODE_ID_LEN)` is as before. -/
theorem generate_node_id_writes_exactly_the_id (H : Header) (X : Extern σ) (w : World σ)
    (out : Ptr) (hne : H.CYXWIZ_ERR_INVALID ≠ H.CYXWIZ_OK) :
    ((cyxwiz_ffi_generate_node_id H X out w).1 = H.CYXWIZ_OK ↔ out ≠ NULL) ∧
    (out = NULL → cyxwiz_ffi_generate_node_id H X out w = (H.CYXWIZ_ERR_INVALID, w)) ∧
    (out ≠ NULL →
      (cyxwiz_ffi_generate_node_id H X out w).2.calls
        = w.calls ++ [(.cyxwiz_node_id_random,
            (X.exec w.lib w.env w.bytes .cyxwiz_node_id_random).1)] ∧
      (∀ i, i < H.CYXWIZ_NODE_ID_LEN →
        (cyxwiz_ffi_generate_node_id H X out w).2.bytes (out + i)
          = (X.exec w.lib w.env w.bytes .cyxwiz_node_id_random).1.bytes.getD i 0) ∧
      (∀ i, H.CYXWIZ_NODE_ID_LEN ≤ i →
        (cyxwiz_ffi_generate_node_id H X out w).2.bytes (out + i) = w.bytes (out + i)) ∧
      (∀ a, a < out → (cyxwiz_ffi_generate_node_id H X out w).2.bytes a = w.bytes a)) := by
  refine ⟨?_, ?_, ?_⟩
  · by_cases h : out = NULL
    · simp only [cyxwiz_ffi_generate_node_id, if_pos h]
      exact ⟨fun h1 => absurd h1 hne, fun h1 => absurd h h1⟩
    · simp only [cyxwiz_ffi_generate_node_id, if_neg h]
      exact ⟨fun _ => h, fun _ => trivial⟩
  · intro h
    simp only [cyxwiz_ffi_generate_node_id, if_pos h]
  · intro h
    simp only [cyxwiz_ffi_generate_node_id, if_neg h, invoke]
    refine ⟨trivial, fun i hi => memcpy_inside _ _ _ _ _ hi, fun i hi => ?_, fun a ha => ?_⟩
    · exact memcpy_outside _ _ _ _ _ (by omega)
    · exact memcpy_outside _ _ _ _ _ (fun h1 => absurd h1.1 (Nat.not_le.mpr ha))

/-- C6 at a concrete input: generating into the buffer at address 100 with
the scripted library, whose random id is `1, 2, 3, ...`. -/
theorem generate_node_id_writes_exactly_the_id_witness :
    (cyxwiz_ffi_generate_node_id hdr (scripted 0 0 0) 100 (world0 0)).1 = hdr.CYXWIZ_OK ∧
    (cyxwiz_ffi_generate_node_id hdr (scripted 0 0 0) 100 (world0 0)).2.bytes (100 + 31)
      = 32 ∧
    (cyxwiz_ffi_generate_node_id hdr (scripted 0 0 0) 100 (world0 0)).2.bytes (100 + 32)
      = 0 := by
  have h := generate_node_id_writes_exactly_the_id hdr (scripted 0 0 0) (world0 0) 100
    (by decide)
  have hout : (100 : Ptr) ≠ NULL := by decide
  refine ⟨h.1.2 hout, ?_, ?_⟩
  · rw [(h.2.2 hout).2.1 31 (by decide)]
    rfl
  · rw [(h.2.2 hout).2.2.1 32 (by decide)]
    rfl

/-! ## The transport constructor -/

theorem live_transports_append (H : Header) (l1 l2 : List (Call × Ret)) :
    live_transports H (l1 ++ l2) = l2.foldl (live_step H) (live_transports H l1) := by
  simp [live_transports, List.foldl_append]

theorem cstring_append_nul (l : List Nat) (h : ∀ b ∈ l, b ≠ 0) : cstring (l ++ [0]) = l := by
  induction l with
  | nil => simp [cstring]
  | cons a t ih =>
    have ha : a ≠ 0 := h a (List.mem_cons_self a t)
    have ht : ∀ b ∈ t, b ≠ 0 := fun b hb => h b (List.mem_cons_of_mem a hb)
    have ih2 := ih ht
    simp only [cstring, List.cons_append, List.takeWhile_cons] at ih2 ⊢
    simp only [ne_eq, ha, not_false_eq_true, decide_True, ↓reduceIte]
    rw [ih2]

theorem read_mem (mem : Ptr → Nat) (p : Ptr) (n b : Nat) (h : b ∈ read mem p n) :
    ∃ i, i < n ∧ b = mem (p + i) := by
  simp only [read, List.mem_map, List.mem_range] at h
  obtain ⟨i, hi, rfl⟩ := h
  exact ⟨i, hi, rfl⟩

theorem getenv_unsetenv_other (env : Env) (name other : String) (h : other ≠ name) :
    getenv (unsetenv env name) other = getenv env other := by
  induction env with
  | nil => rfl
  | cons e t ih =>
    obtain ⟨n, v⟩ := e
    by_cases he : n = name
    · have hne : ¬ n = other := fun h1 => h (h1.symm.trans he)
      simp only [unsetenv, getenv, if_pos he, if_neg hne, ih]
    · by_cases ho : n = other
      · simp only [unsetenv, getenv, if_neg he, if_pos ho]
      · simp only [unsetenv, getenv, if_neg he, if_neg ho, ih]

theorem getenv_cons_self (env : Env) (name : String) (v : List Nat) :
    getenv ((name, v) :: env) name = some v := by
  simp only [getenv, if_true]

theorem getenv_cons_other (env : Env) (name other : String) (v : List Nat)
    (h : other ≠ name) : getenv ((name, v) :: env) other = getenv env other := by
  have hne : ¬ name = other := fun h1 => h h1.symm
  simp only [getenv, if_neg hne]

theorem set_bootstrap_frame (win32 : Bool) (p bootstrap : Ptr) (n : Nat) (w : World σ) :
    (set_bootstrap win32 p bootstrap n w).heap = w.heap ∧
    (set_bootstrap win32 p bootstrap n w).slots = w.slots ∧
    (set_bootstrap win32 p bootstrap n w).lib = w.lib ∧
    (set_bootstrap win32 p bootstrap n w).bytes = w.bytes ∧
    (set_bootstrap win32 p bootstrap n w).calls
      = w.calls ++ [bootstrap_call win32 (cstring (read w.bytes bootstrap n ++ [0]))] := by
  cases win32 <;> simp [set_bootstrap, record, bootstrap_call]

theorem set_bootstrap_env (win32 : Bool) (p bootstrap : Ptr) (n : Nat) (w : World σ) :
    (set_bootstrap win32 p bootstrap n w).env
      = if win32 then _putenv_s w.env "CYXWIZ_BOOTSTRAP" (read w.bytes bootstrap n ++ [0])
        else setenv w.env "CYXWIZ_BOOTSTRAP" (read w.bytes bootstrap n ++ [0]) 1 := by
  cases win32 <;> simp [set_bootstrap, record]

theorem live_step_bootstrap_call (H : Header) (win32 : Bool) (v : List Nat) (live : List Ptr) :
    live_step H live (bootstrap_call win32 v) = live := by
  cases win32 <;> simp [live_step, bootstrap_call]

/-- What the part after the bootstrap block does to the machine state. -/
theorem transport_create_tail_frame (H : Header) (X : Extern σ) (out : Ptr) (w : World σ) :
    (transport_create_tail H X out w).2.heap = w.heap ∧
    (transport_create_tail H X out w).2.env = w.env ∧
    (transport_create_tail H X out w).2.bytes = w.bytes ∧
    ∃ rc rest, (transport_create_tail H X out w).2.calls
      = w.calls ++ (Call.cyxwiz_transport_create H.CYXWIZ_TRANSPORT_UDP, rc) :: rest := by
  simp only [transport_create_tail, invoke]
  split_ifs <;> simp

/-- A failing run of the part after the bootstrap block. -/
theorem transport_create_tail_failure (H : Header) (X : Extern σ) (out : Ptr) (w : World σ)
    (hfail : (transport_create_tail H X out w).1 ≠ H.CYXWIZ_OK) :
    (transport_create_tail H X out w).2.slots = w.slots ∧
    live_transports H (transport_create_tail H X out w).2.calls = live_transports H w.calls ∧
    ((∃ rc, (transport_create_tail H X out w).2.calls
          = w.calls ++ [(Call.cyxwiz_transport_create H.CYXWIZ_TRANSPORT_UDP, rc)] ∧
        rc.val ≠ H.CYXWIZ_OK ∧ (transport_create_tail H X out w).1 = rc.val) ∨
     (∃ rc ri rd, (transport_create_tail H X out w).2.calls
          = w.calls ++ [(Call.cyxwiz_transport_create H.CYXWIZ_TRANSPORT_UDP, rc),
              (Call.ops_init rc.out, ri), (Call.cyxwiz_transport_destroy rc.out, rd)] ∧
        rc.val = H.CYXWIZ_OK ∧ ri.val ≠ H.CYXWIZ_OK ∧
        (transport_create_tail H X out w).1 = ri.val)) := by
  simp only [transport_create_tail, invoke] at hfail ⊢
  generalize X.exec w.lib w.env w.bytes
    (Call.cyxwiz_transport_create H.CYXWIZ_TRANSPORT_UDP) = rc at hfail ⊢
  generalize hri : X.exec rc.2 w.env w.bytes (Call.ops_init rc.1.out) = ri at hfail ⊢
  generalize X.exec ri.2 w.env w.bytes (Call.cyxwiz_transport_destroy rc.1.out) = rd
    at hfail ⊢
  split_ifs at hfail ⊢ with h1 h2 h3
  · refine ⟨rfl, ?_, Or.inl ⟨rc.1, rfl, h1, rfl⟩⟩
    simp [live_transports_append, live_step, h1]
  · refine ⟨rfl, ?_, Or.inr ⟨rc.1, ri.1, rd.1, ?_, not_not.mp h1, h3, rfl⟩⟩
    · simp [live_transports_append, live_step, not_not.mp h1]
    · simp
  · exact absurd rfl hfail
  · exact absurd rfl hfail

/-! ## C3: a failed transport create leaves nothing behind -/

/-- C3. Whenever `cyxwiz_ffi_transport_create` returns a code other than
`CYXWIZ_OK` (with `bootstrap_len + 1` representable in `size_t`, as for every
buffer that exists), the transport objects alive and the heap blocks alive
after the call are those alive before it and no `*out` cell is written; the
code returned is that of the step that failed: `CYXWIZ_ERR_INVALID` for a null
`out`, `CYXWIZ_ERR_NOMEM` when the copy of the bootstrap address cannot be
allocated, the code of `cyxwiz_transport_create` when that is the last call
made, or the code of the `init` hook, in which case the trace ends with the
creation, the hook and `cyxwiz_transport_destroy` of the transport just
created. -/
theorem transport_create_failure_leaves_nothing (H : Header) (X : Extern σ) (win32 : Bool)
    (out bootstrap : Ptr) (bootstrap_len : Nat) (w : World σ)
    (hlen : bootstrap_len + 1 < SIZE_RANGE)
    (hfail : (cyxwiz_ffi_transport_create H X win32 out bootstrap bootstrap_len w).1
      ≠ H.CYXWIZ_OK) :
    live_transports H (cyxwiz_ffi_transport_create H X win32 out bootstrap bootstrap_len w).2.calls
      = live_transports H w.calls ∧
    (cyxwiz_ffi_transport_create H X win32 out bootstrap bootstrap_len w).2.heap = w.heap ∧
    (cyxwiz_ffi_transport_create H X win32 out bootstrap bootstrap_len w).2.slots = w.slots ∧
    ((out = NULL ∧
        (cyxwiz_ffi_transport_create H X win32 out bootstrap bootstrap_len w).1
          = H.CYXWIZ_ERR_INVALID) ∨
     (bootstrap ≠ NULL ∧ 0 < bootstrap_len ∧ X.malloc w.heap (bootstrap_len + 1) = NULL ∧
        (cyxwiz_ffi_transport_create H X win32 out bootstrap bootstrap_len w).1
          = H.CYXWIZ_ERR_NOMEM) ∨
     (∃ pre rc, w.calls <+: pre ∧
        (cyxwiz_ffi_transport_create H X win32 out bootstrap bootstrap_len w).2.calls
          = pre ++ [(Call.cyxwiz_transport_create H.CYXWIZ_TRANSPORT_UDP, rc)] ∧
        rc.val ≠ H.CYXWIZ_OK ∧
        (cyxwiz_ffi_transport_create H X win32 out bootstrap bootstrap_len w).1 = rc.val) ∨
     (∃ pre rc ri rd, w.calls <+: pre ∧
        (cyxwiz_ffi_transport_create H X win32 out bootstrap bootstrap_len w).2.calls
          = pre ++ [(Call.cyxwiz_transport_create H.CYXWIZ_TRANSPORT_UDP, rc),
              (Call.ops_init rc.out, ri), (Call.cyxwiz_transport_destroy rc.out, rd)] ∧
        rc.val = H.CYXWIZ_OK ∧ ri.val ≠ H.CYXWIZ_OK ∧
        (cyxwiz_ffi_transport_create H X win32 out bootstrap bootstrap_len w).1 = ri.val)) := by
  have hmod : (bootstrap_len + 1) % SIZE_RANGE = bootstrap_len + 1 := Nat.mod_eq_of_lt hlen
  by_cases hout : out = NULL
  · simp only [cyxwiz_ffi_transport_create, if_pos hout]
    exact ⟨trivial, trivial, trivial, Or.inl ⟨hout, trivial⟩⟩
  · by_cases hb : bootstrap ≠ NULL ∧ bootstrap_len > 0
    · by_cases hm : X.malloc w.heap (bootstrap_len + 1) = NULL
      · simp only [cyxwiz_ffi_transport_create, if_neg hout, if_pos hb, hmod, if_pos hm]
        exact ⟨trivial, trivial, trivial, Or.inr (Or.inl ⟨hb.1, hb.2, hm, trivial⟩)⟩
      · simp only [cyxwiz_ffi_transport_create, if_neg hout, if_pos hb, hmod, if_neg hm]
          at hfail ⊢
        obtain ⟨hheap, hslots, -, -, hcalls⟩ := set_bootstrap_frame win32
          (X.malloc w.heap (bootstrap_len + 1)) bootstrap bootstrap_len w
        obtain ⟨theap, -, -, -⟩ := transport_create_tail_frame H X out
          (set_bootstrap win32 (X.malloc w.heap (bootstrap_len + 1)) bootstrap bootstrap_len w)
        obtain ⟨tslots, tlive, tstep⟩ := transport_create_tail_failure H X out
          (set_bootstrap win32 (X.malloc w.heap (bootstrap_len + 1)) bootstrap bootstrap_len w)
          hfail
        have hpre : w.calls <+: (set_bootstrap win32 (X.malloc w.heap (bootstrap_len + 1))
            bootstrap bootstrap_len w).calls := by
          rw [hcalls]
          exact List.prefix_append _ _
        refine ⟨?_, theap.trans hheap, tslots.trans hslots, Or.inr (Or.inr ?_)⟩
        · rw [tlive, hcalls, live_transports_append]
          simp only [List.foldl_cons, List.foldl_nil, live_step_bootstrap_call]
        · rcases tstep with ⟨rc, h1, h2, h3⟩ | ⟨rc, ri, rd, h1, h2, h3, h4⟩
          · exact Or.inl ⟨_, rc, hpre, h1, h2, h3⟩
          · exact Or.inr ⟨_, rc, ri, rd, hpre, h1, h2, h3, h4⟩
    · simp only [cyxwiz_ffi_transport_create, if_neg hout, if_neg hb] at hfail ⊢
      obtain ⟨theap, -, -, -⟩ := transport_create_tail_frame H X out w
      obtain ⟨tslots, tlive, tstep⟩ := transport_create_tail_failure H X out w hfail
      refine ⟨tlive, theap, tslots, Or.inr (Or.inr ?_)⟩
      rcases tstep with ⟨rc, h1, h2, h3⟩ | ⟨rc, ri, rd, h1, h2, h3, h4⟩
      · exact Or.inl ⟨_, rc, List.prefix_refl _, h1, h2, h3⟩
      · exact Or.inr ⟨_, rc, ri, rd, List.prefix_refl _, h1, h2, h3, h4⟩

/-- C3 at a concrete input: the bootstrap copy is allocated, the transport is
created as object 7 and its `init` hook fails with `-3`; nothing stays alive
and the cell at `out` keeps its value. -/
theorem transport_create_failure_leaves_nothing_witness :
    (cyxwiz_ffi_transport_create hdr (scripted 0 (-3) 500) false 100 200 1 world_boot).1 = -3 ∧
    live_transports hdr
        (cyxwiz_ffi_transport_create hdr (scripted 0 (-3) 500) false 100 200 1 world_boot).2.calls
      = live_transports hdr world_boot.calls ∧
    (cyxwiz_ffi_transport_create hdr (scripted 0 (-3) 500) false 100 200 1 world_boot).2.heap
      = world_boot.heap ∧
    (cyxwiz_ffi_transport_create hdr (scripted 0 (-3) 500) false 100 200 1 world_boot).2.slots
      = world_boot.slots := by
  have h := transport_create_failure_leaves_nothing hdr (scripted 0 (-3) 500) false 100 200 1
    world_boot (by decide) (by decide)
  exact ⟨by decide, h.1, h.2.1, h.2.2.1⟩

/-! ## C9: the bootstrap address and the environment -/

/-- C9 (amended). With a non-null `out`, a non-null `bootstrap`, a positive
`bootstrap_len` (with `bootstrap_len + 1` representable in `size_t`), a
successful allocation of the temporary copy and no NUL among the first
`bootstrap_len` bytes of `bootstrap`, `CYXWIZ_BOOTSTRAP` is set, replacing any
earlier value and leaving every other variable alone, to exactly those bytes,
and the call that sets it is recorded before `cyxwiz_transport_create`; this
holds whatever the creation and the `init` hook return. When the allocation
fails the function returns `CYXWIZ_ERR_NOMEM` and the machine state, the
environment included, is as before. When `bootstrap` is null or
`bootstrap_len` is `0` the environment is unchanged and the first call made
is `cyxwiz_transport_create`. When `out` is null the machine state is
unchanged. -/
theorem transport_create_bootstrap_env (H : Header) (X : Extern σ) (win32 : Bool)
    (out bootstrap : Ptr) (bootstrap_len : Nat) (w : World σ) :
    (out ≠ NULL → bootstrap ≠ NULL → 0 < bootstrap_len → bootstrap_len + 1 < SIZE_RANGE →
      X.malloc w.heap (bootstrap_len + 1) ≠ NULL →
      (∀ i, i < bootstrap_len → w.bytes (bootstrap + i) ≠ 0) →
      getenv (cyxwiz_ffi_transport_create H X win32 out bootstrap bootstrap_len w).2.env
          "CYXWIZ_BOOTSTRAP" = some (read w.bytes bootstrap bootstrap_len) ∧
      (∀ name, name ≠ "CYXWIZ_BOOTSTRAP" →
        getenv (cyxwiz_ffi_transport_create H X win32 out bootstrap bootstrap_len w).2.env name
          = getenv w.env name) ∧
      ∃ rc rest,
        (cyxwiz_ffi_transport_create H X win32 out bootstrap bootstrap_len w).2.calls
          = w.calls ++ bootstrap_call win32 (read w.bytes bootstrap bootstrap_len) ::
              (Call.cyxwiz_transport_create H.CYXWIZ_TRANSPORT_UDP, rc) :: rest) ∧
    (out ≠ NULL → bootstrap ≠ NULL → 0 < bootstrap_len → bootstrap_len + 1 < SIZE_RANGE →
      X.malloc w.heap (bootstrap_len + 1) = NULL →
      cyxwiz_ffi_transport_create H X win32 out bootstrap bootstrap_len w
        = (H.CYXWIZ_ERR_NOMEM, w)) ∧
    (out ≠ NULL → (bootstrap = NULL ∨ bootstrap_len = 0) →
      (cyxwiz_ffi_transport_create H X win32 out bootstrap bootstrap_len w).2.env = w.env ∧
      ∃ rc rest,
        (cyxwiz_ffi_transport_create H X win32 out bootstrap bootstrap_len w).2.calls
          = w.calls ++ (Call.cyxwiz_transport_create H.CYXWIZ_TRANSPORT_UDP, rc) :: rest) ∧
    (out = NULL →
      cyxwiz_ffi_transport_create H X win32 out bootstrap bootstrap_len w
        = (H.CYXWIZ_ERR_INVALID, w)) := by
  refine ⟨?_, ?_, ?_, ?_⟩
  · intro hout hb hpos hlen hm hnul
    have hmod : (bootstrap_len + 1) % SIZE_RANGE = bootstrap_len + 1 := Nat.mod_eq_of_lt hlen
    have hprov : bootstrap ≠ NULL ∧ bootstrap_len > 0 := ⟨hb, hpos⟩
    have hstr : cstring (read w.bytes bootstrap bootstrap_len ++ [0])
        = read w.bytes bootstrap bootstrap_len := by
      apply cstring_append_nul
      intro b hb
      obtain ⟨i, hi, rfl⟩ := read_mem _ _ _ _ hb
      exact hnul i hi
    have hne : read w.bytes bootstrap bootstrap_len ≠ [] := by
      intro h0
      have hl := read_length w.bytes bootstrap bootstrap_len
      rw [h0] at hl
      simp only [List.length_nil] at hl
      omega
    simp only [cyxwiz_ffi_transport_create, if_neg hout, if_pos hprov, hmod, if_neg hm]
    obtain ⟨-, -, -, -, hcalls⟩ := set_bootstrap_frame win32
      (X.malloc w.heap (bootstrap_len + 1)) bootstrap bootstrap_len w
    have henv := set_bootstrap_env win32
      (X.malloc w.heap (bootstrap_len + 1)) bootstrap bootstrap_len w
    obtain ⟨-, tenv, -, rc, rest, tcalls⟩ := transport_create_tail_frame H X out
      (set_bootstrap win32 (X.malloc w.heap (bootstrap_len + 1)) bootstrap bootstrap_len w)
    have hnew : (set_bootstrap win32 (X.malloc w.heap (bootstrap_len + 1)) bootstrap
        bootstrap_len w).env
        = ("CYXWIZ_BOOTSTRAP", read w.bytes bootstrap bootstrap_len)
            :: unsetenv w.env "CYXWIZ_BOOTSTRAP" := by
      rw [henv]
      cases win32
      · simp [setenv, hstr]
      · simp [_putenv_s, hstr, hne]
    refine ⟨?_, ?_, rc, rest, ?_⟩
    · rw [tenv, hnew, getenv_cons_self]
    · intro name hname
      rw [tenv, hnew, getenv_cons_other _ _ _ _ hname, getenv_unsetenv_other _ _ _ hname]
    · rw [tcalls, hcalls, hstr]
      simp
  · intro hout hb hpos hlen hm
    have hmod : (bootstrap_len + 1) % SIZE_RANGE = bootstrap_len + 1 := Nat.mod_eq_of_lt hlen
    have hprov : bootstrap ≠ NULL ∧ bootstrap_len > 0 := ⟨hb, hpos⟩
    simp only [cyxwiz_ffi_transport_create, if_neg hout, if_pos hprov, hmod, if_pos hm]
  · intro hout hb
    have hprov : ¬ (bootstrap ≠ NULL ∧ bootstrap_len > 0) := by
      rintro ⟨h1, h2⟩
      rcases hb with h | h
      · exact h1 h
      · omega
    simp only [cyxwiz_ffi_transport_create, if_neg hout, if_neg hprov]
    obtain ⟨-, tenv, -, rc, rest, tcalls⟩ := transport_create_tail_frame H X out w
    exact ⟨tenv, rc, rest, tcalls⟩
  · intro hout
    simp only [cyxwiz_ffi_transport_create, if_pos hout]

/-- C9 at concrete inputs: the one byte `a` at address 200 becomes the value
of `CYXWIZ_BOOTSTRAP` although the `init` hook then fails; with a failing
allocator the call returns `CYXWIZ_ERR_NOMEM` and changes nothing. -/
theorem transport_create_bootstrap_env_witness :
    getenv (cyxwiz_ffi_transport_create hdr (scripted 0 (-3) 500) false 100 200 1
        world_boot).2.env "CYXWIZ_BOOTSTRAP" = some (read world_boot.bytes 200 1) ∧
    cyxwiz_ffi_transport_create hdr (scripted 0 0 NULL) false 100 200 1 world_boot
      = (hdr.CYXWIZ_ERR_NOMEM, world_boot) ∧
    (cyxwiz_ffi_transport_create hdr (scripted 0 0 500) false 100 NULL 1 world_boot).2.env
      = world_boot.env ∧
    cyxwiz_ffi_transport_create hdr (scripted 0 0 500) false NULL 200 1 world_boot
      = (hdr.CYXWIZ_ERR_INVALID, world_boot) := by
  refine ⟨?_, ?_, ?_, ?_⟩
  · refine ((transport_create_bootstrap_env hdr (scripted 0 (-3) 500) false 100 200 1
      world_boot).1 (by decide) (by decide) (by decide) (by decide) (by decide) ?_).1
    intro i hi
    have h0 : i = 0 := by omega
    subst h0
    decide
  · exact (transport_create_bootstrap_env hdr (scripted 0 0 NULL) false 100 200 1
      world_boot).2.1 (by decide) (by decide) (by decide) (by decide) rfl
  · exact ((transport_create_bootstrap_env hdr (scripted 0 0 500) false 100 NULL 1
      world_boot).2.2.1 (by decide) (Or.inl rfl)).1
  · exact (transport_create_bootstrap_env hdr (scripted 0 0 500) false NULL 200 1
      world_boot).2.2.2 rfl

/-- C9 as stated fails on two inputs with a non-null `out`, a non-null
`bootstrap` and a positive length. When `malloc` fails the call returns
`CYXWIZ_ERR_NOMEM` without setting the variable and without calling
`cyxwiz_transport_create`. When the bytes hold a NUL (`a`, NUL, `b`), the
variable is set to the bytes before it, not to the first `bootstrap_len`
bytes. -/
theorem transport_create_bootstrap_not_always_set :
    ((cyxwiz_ffi_transport_create hdr (scripted 0 0 NULL) false 100 200 1 world_boot).1
        = hdr.CYXWIZ_ERR_NOMEM ∧
      getenv (cyxwiz_ffi_transport_create hdr (scripted 0 0 NULL) false 100 200 1
        world_boot).2.env "CYXWIZ_BOOTSTRAP" = none ∧
      (cyxwiz_ffi_transport_create hdr (scripted 0 0 NULL) false 100 200 1 world_boot).2.calls
        = []) ∧
    (read world_boot.bytes 200 3 = [97, 0, 98] ∧
      getenv (cyxwiz_ffi_transport_create hdr (scripted 0 0 500) false 100 200 3
        world_boot).2.env "CYXWIZ_BOOTSTRAP" = some [97]) := by
  refine ⟨⟨by decide, by decide, by decide⟩, by decide, by decide⟩

/-! ## C4: destroying a handle twice -/

/-- C4 (amended). Destroy does nothing on a null handle, and only there. For a
non-null handle `h`, every call of a destroy operation (peer table, router,
DHT, discovery, onion of the crypto build) makes the underlying teardown call
on `h`, so two calls in a row make it twice; the binding keeps no record of
handles already destroyed. For the transport every call makes
`cyxwiz_transport_destroy h`, preceded by the `shutdown` hook when the `ops`
table of `h` has one. -/
theorem destroy_tears_down_on_every_call (X : Extern σ) (w : World σ) (h : Ptr) :
    (cyxwiz_ffi_transport_destroy X NULL w = w ∧
      cyxwiz_ffi_peer_table_destroy X NULL w = w ∧
      cyxwiz_ffi_router_destroy X NULL w = w ∧
      cyxwiz_ffi_dht_destroy X NULL w = w ∧
      cyxwiz_ffi_discovery_destroy X NULL w = w ∧
      Crypto.cyxwiz_ffi_onion_destroy X NULL w = w) ∧
    (h ≠ NULL →
      (called (cyxwiz_ffi_peer_table_destroy X h w).calls
          = called w.calls ++ [.cyxwiz_peer_table_destroy h] ∧
        called (cyxwiz_ffi_peer_table_destroy X h (cyxwiz_ffi_peer_table_destroy X h w)).calls
          = called w.calls ++ [.cyxwiz_peer_table_destroy h, .cyxwiz_peer_table_destroy h]) ∧
      (called (cyxwiz_ffi_router_destroy X h w).calls
          = called w.calls ++ [.cyxwiz_router_destroy h] ∧
        called (cyxwiz_ffi_router_destroy X h (cyxwiz_ffi_router_destroy X h w)).calls
          = called w.calls ++ [.cyxwiz_router_destroy h, .cyxwiz_router_destroy h]) ∧
      (called (cyxwiz_ffi_dht_destroy X h w).calls
          = called w.calls ++ [.cyxwiz_dht_destroy h] ∧
        called (cyxwiz_ffi_dht_destroy X h (cyxwiz_ffi_dht_destroy X h w)).calls
          = called w.calls ++ [.cyxwiz_dht_destroy h, .cyxwiz_dht_destroy h]) ∧
      (called (cyxwiz_ffi_discovery_destroy X h w).calls
          = called w.calls ++ [.cyxwiz_discovery_destroy h] ∧
        called (cyxwiz_ffi_discovery_destroy X h (cyxwiz_ffi_discovery_destroy X h w)).calls
          = called w.calls ++ [.cyxwiz_discovery_destroy h, .cyxwiz_discovery_destroy h]) ∧
      (called (Crypto.cyxwiz_ffi_onion_destroy X h w).calls
          = called w.calls ++ [.cyxwiz_onion_destroy h] ∧
        called (Crypto.cyxwiz_ffi_onion_destroy X h (Crypto.cyxwiz_ffi_onion_destroy X h w)).calls
          = called w.calls ++ [.cyxwiz_onion_destroy h, .cyxwiz_onion_destroy h]) ∧
      ((called (cyxwiz_ffi_transport_destroy X h w).calls
            = called w.calls ++ [.ops_shutdown h, .cyxwiz_transport_destroy h] ∨
          called (cyxwiz_ffi_transport_destroy X h w).calls
            = called w.calls ++ [.cyxwiz_transport_destroy h]) ∧
        (called (cyxwiz_ffi_transport_destroy X h w).calls).count (.cyxwiz_transport_destroy h)
          = (called w.calls).count (.cyxwiz_transport_destroy h) + 1 ∧
        (called (cyxwiz_ffi_transport_destroy X h
            (cyxwiz_ffi_transport_destroy X h w)).calls).count (.cyxwiz_transport_destroy h)
          = (called w.calls).count (.cyxwiz_transport_destroy h) + 2 ∧
        (∀ ops, X.transport_ops w.lib h = some ops → ops.shutdown = true →
          called (cyxwiz_ffi_transport_destroy X h w).calls
            = called w.calls ++ [.ops_shutdown h, .cyxwiz_transport_destroy h]))) := by
  refine ⟨⟨rfl, rfl, rfl, rfl, rfl, rfl⟩, ?_⟩
  intro hh
  have htd : ∀ v : World σ,
      called (cyxwiz_ffi_transport_destroy X h v).calls
          = called v.calls ++ [.ops_shutdown h, .cyxwiz_transport_destroy h] ∨
        called (cyxwiz_ffi_transport_destroy X h v).calls
          = called v.calls ++ [.cyxwiz_transport_destroy h] := by
    intro v
    simp only [cyxwiz_ffi_transport_destroy, if_pos hh, invoke]
    split_ifs
    · left
      simp [called]
    · right
      simp [called]
  have hcount : ∀ v : World σ,
      (called (cyxwiz_ffi_transport_destroy X h v).calls).count (.cyxwiz_transport_destroy h)
        = (called v.calls).count (.cyxwiz_transport_destroy h) + 1 := by
    intro v
    rcases htd v with h1 | h1
    · rw [h1]
      simp [List.count_append, List.count_cons]
    · rw [h1]
      simp [List.count_append]
  refine ⟨?_, ?_, ?_, ?_, ?_, htd w, hcount w, ?_, ?_⟩
  · simp [cyxwiz_ffi_peer_table_destroy, hh, invoke, called]
  · simp [cyxwiz_ffi_router_destroy, hh, invoke, called]
  · simp [cyxwiz_ffi_dht_destroy, hh, invoke, called]
  · simp [cyxwiz_ffi_discovery_destroy, hh, invoke, called]
  · simp [Crypto.cyxwiz_ffi_onion_destroy, hh, invoke, called]
  · rw [hcount, hcount]
  · intro ops hops hs
    simp [cyxwiz_ffi_transport_destroy, hh, invoke, hops, hs, called]

/-- C4 (amended) at a concrete input: two destroys of the router handle 7
against the scripted library. -/
theorem destroy_tears_down_on_every_call_witness :
    called (cyxwiz_ffi_router_destroy (scripted 0 0 0) 7
        (cyxwiz_ffi_router_destroy (scripted 0 0 0) 7 (world0 0))).calls
      = called (world0 0).calls ++ [.cyxwiz_router_destroy 7, .cyxwiz_router_destroy 7] :=
  ((destroy_tears_down_on_every_call (scripted 0 0 0) (world0 0) 7).2 (by decide)).2.1.2

/-- C4 as stated fails. A router handle and a transport handle are obtained
from their create operations (both are the object 7 of the scripted library)
and each is destroyed twice: `cyxwiz_router_destroy 7` is called twice, and so
are the `shutdown` hook and `cyxwiz_transport_destroy 7`; the library state,
which counts calls, moves again on the second destroy. -/
theorem destroy_twice_tears_down_twice :
    ((cyxwiz_ffi_router_create hdr (scripted 0 0 0) 100 1 2 200 (world0 0)).2.slots 100 = 7 ∧
      (called (cyxwiz_ffi_router_destroy (scripted 0 0 0) 7
        (cyxwiz_ffi_router_destroy (scripted 0 0 0) 7
          (cyxwiz_ffi_router_create hdr (scripted 0 0 0) 100 1 2 200 (world0 0)).2)).calls).count
            (.cyxwiz_router_destroy 7) = 2 ∧
      (cyxwiz_ffi_router_destroy (scripted 0 0 0) 7
        (cyxwiz_ffi_router_create hdr (scripted 0 0 0) 100 1 2 200 (world0 0)).2).lib = 2 ∧
      (cyxwiz_ffi_router_destroy (scripted 0 0 0) 7
        (cyxwiz_ffi_router_destroy (scripted 0 0 0) 7
          (cyxwiz_ffi_router_create hdr (scripted 0 0 0) 100 1 2 200 (world0 0)).2)).lib = 3) ∧
    ((cyxwiz_ffi_transport_create hdr (scripted 0 0 0) false 100 NULL 0 (world0 0)).2.slots 100
        = 7 ∧
      called (cyxwiz_ffi_transport_destroy (scripted 0 0 0) 7
        (cyxwiz_ffi_transport_destroy (scripted 0 0 0) 7
          (cyxwiz_ffi_transport_create hdr (scripted 0 0 0) false 100 NULL 0 (world0 0)).2)).calls
        = [.cyxwiz_transport_create 0, .ops_init 7,
            .ops_shutdown 7, .cyxwiz_transport_destroy 7,
            .ops_shutdown 7, .cyxwiz_transport_destroy 7]) := by
  refine ⟨⟨by decide, by decide, by decide, by decide⟩, by decide, by decide⟩

/-! ## C7: the hop count -/

theorem bound_hop_count_range (n : Nat) : 1 ≤ bound_hop_count n ∧ bound_hop_count n ≤ 8 := by
  simp only [bound_hop_count]
  omega

/-- C7 (amended). For a non-null onion handle and `hops` in `0..255`,
`cyxwiz_ffi_onion_set_hops` returns `CYXWIZ_OK` and hands `hops` to
`cyxwiz_onion_set_hop_count` as it is, without bounding it;
`cyxwiz_ffi_onion_get_hops` returns what `cyxwiz_onion_get_hop_count` reports.
Over the onion layer of the design, which bounds the length it stores, the
value read back after a set is `hops` bounded to `1..8`, hence at least 1 and
at most 8. -/
theorem onion_set_hops_passes_through (H : Header) (X : Extern σ) (w : World σ)
    (wo : World (Ptr → cyxwiz_onion_ctx_t)) (onion : Ptr) (hops : Nat)
    (honion : onion ≠ NULL) (_hhops : hops < 256) :
    (Crypto.cyxwiz_ffi_onion_set_hops H X onion hops w).1 = H.CYXWIZ_OK ∧
    (Crypto.cyxwiz_ffi_onion_set_hops H X onion hops w).2.calls
      = w.calls ++ [(.cyxwiz_onion_set_hop_count onion hops,
          (X.exec w.lib w.env w.bytes (.cyxwiz_onion_set_hop_count onion hops)).1)] ∧
    (Crypto.cyxwiz_ffi_onion_get_hops X onion w).1
      = (X.exec w.lib w.env w.bytes (.cyxwiz_onion_get_hop_count onion)).1.val % 256 ∧
    (Crypto.cyxwiz_ffi_onion_get_hops (onion_layer H) onion
        (Crypto.cyxwiz_ffi_onion_set_hops H (onion_layer H) onion hops wo).2).1
      = bound_hop_count hops ∧
    1 ≤ (Crypto.cyxwiz_ffi_onion_get_hops (onion_layer H) onion
        (Crypto.cyxwiz_ffi_onion_set_hops H (onion_layer H) onion hops wo).2).1 ∧
    (Crypto.cyxwiz_ffi_onion_get_hops (onion_layer H) onion
        (Crypto.cyxwiz_ffi_onion_set_hops H (onion_layer H) onion hops wo).2).1 ≤ 8 := by
  have hread : (Crypto.cyxwiz_ffi_onion_get_hops (onion_layer H) onion
      (Crypto.cyxwiz_ffi_onion_set_hops H (onion_layer H) onion hops wo).2).1
      = bound_hop_count hops := by
    have hb := bound_hop_count_range hops
    simp only [Crypto.cyxwiz_ffi_onion_get_hops, Crypto.cyxwiz_ffi_onion_set_hops,
      if_neg honion, invoke, onion_layer, onion_exec, set_ctx, if_true]
    omega
  have hb := bound_hop_count_range hops
  refine ⟨?_, ?_, ?_, hread, ?_, ?_⟩
  · simp only [Crypto.cyxwiz_ffi_onion_set_hops, if_neg honion]
  · simp only [Crypto.cyxwiz_ffi_onion_set_hops, if_neg honion, invoke]
  · simp only [Crypto.cyxwiz_ffi_onion_get_hops, if_neg honion, invoke]
  · rw [hread]
    exact_mod_cast hb.1
  · rw [hread]
    exact_mod_cast hb.2

/-- C7 (amended) at a concrete input: setting 200 hops on the handle 7 of the
modelled onion layer reads back as 8. -/
theorem onion_set_hops_passes_through_witness :
    (Crypto.cyxwiz_ffi_onion_get_hops (onion_layer hdr) 7
        (Crypto.cyxwiz_ffi_onion_set_hops hdr (onion_layer hdr) 7 200 (world0 ctx0)).2).1
      = bound_hop_count 200 :=
  (onion_set_hops_passes_through hdr (scripted 0 0 0) (world0 0) (world0 ctx0) 7 200
    (by decide) (by decide)).2.2.2.1

/-- C7 as stated fails: the length handed to the onion layer is the argument
itself. Setting 0 hops on the handle 7 calls `cyxwiz_onion_set_hop_count` with
0, below the minimum of 1, and setting 200 calls it with 200, above the
maximum of 8. -/
theorem onion_set_hops_hands_over_unbounded :
    called (Crypto.cyxwiz_ffi_onion_set_hops hdr (scripted 0 0 0) 7 0 (world0 0)).2.calls
      = [.cyxwiz_onion_set_hop_count 7 0] ∧
    called (Crypto.cyxwiz_ffi_onion_set_hops hdr (scripted 0 0 0) 7 200 (world0 0)).2.calls
      = [.cyxwiz_onion_set_hop_count 7 200] := by
  refine ⟨by decide, by decide⟩

/-! ## C8: the cover-traffic switch -/

/-- C8. For a non-null onion handle and every `int32_t` value `enable`,
`cyxwiz_ffi_onion_enable_cover_traffic` makes one call, handing the flag
`enable != 0` to the onion layer. The query
`cyxwiz_ffi_onion_cover_traffic_enabled` returns `0` or `1` for every library
and handle. Over the onion layer of the design, the query that follows the
switch returns `1` when `enable != 0` and `0` when `enable == 0`, and the
circuit count and the peer-key count of every handle are the same before and
after the switch. -/
theorem cover_traffic_round_trip (H : Header) (X : Extern σ) (w : World σ)
    (wo : World (Ptr → cyxwiz_onion_ctx_t)) (onion other : Ptr) (enable : Int)
    (honion : onion ≠ NULL) :
    (Crypto.cyxwiz_ffi_onion_enable_cover_traffic X onion enable w).calls
      = w.calls ++ [(.cyxwiz_onion_enable_cover_traffic onion (decide (enable ≠ 0)),
          (X.exec w.lib w.env w.bytes
            (.cyxwiz_onion_enable_cover_traffic onion (decide (enable ≠ 0)))).1)] ∧
    ((Crypto.cyxwiz_ffi_onion_cover_traffic_enabled X other w).1 = 0 ∨
      (Crypto.cyxwiz_ffi_onion_cover_traffic_enabled X other w).1 = 1) ∧
    (Crypto.cyxwiz_ffi_onion_cover_traffic_enabled (onion_layer H) onion
        (Crypto.cyxwiz_ffi_onion_enable_cover_traffic (onion_layer H) onion enable wo)).1
      = (if enable ≠ 0 then 1 else 0) ∧
    (Crypto.cyxwiz_ffi_onion_circuit_count (onion_layer H) other
        (Crypto.cyxwiz_ffi_onion_enable_cover_traffic (onion_layer H) onion enable wo)).1
      = (Crypto.cyxwiz_ffi_onion_circuit_count (onion_layer H) other wo).1 ∧
    (Crypto.cyxwiz_ffi_onion_peer_key_count (onion_layer H) other
        (Crypto.cyxwiz_ffi_onion_enable_cover_traffic (onion_layer H) onion enable wo)).1
      = (Crypto.cyxwiz_ffi_onion_peer_key_count (onion_layer H) other wo).1 := by
  refine ⟨?_, ?_, ?_, ?_, ?_⟩
  · simp only [Crypto.cyxwiz_ffi_onion_enable_cover_traffic, if_pos honion, invoke]
  · simp only [Crypto.cyxwiz_ffi_onion_cover_traffic_enabled]
    split_ifs <;> simp
  · simp only [Crypto.cyxwiz_ffi_onion_cover_traffic_enabled,
      Crypto.cyxwiz_ffi_onion_enable_cover_traffic, if_pos honion, if_neg honion, invoke,
      onion_layer, onion_exec, set_ctx, if_true]
    by_cases he : enable = 0 <;> simp [he]
  · by_cases ho : other = NULL
    · simp only [Crypto.cyxwiz_ffi_onion_circuit_count, if_pos ho]
    · simp only [Crypto.cyxwiz_ffi_onion_circuit_count,
        Crypto.cyxwiz_ffi_onion_enable_cover_traffic, if_pos honion, if_neg ho, invoke,
        onion_layer, onion_exec, set_ctx]
      split_ifs with h1
      · rw [h1]
      · rfl
  · by_cases ho : other = NULL
    · simp only [Crypto.cyxwiz_ffi_onion_peer_key_count, if_pos ho]
    · simp only [Crypto.cyxwiz_ffi_onion_peer_key_count,
        Crypto.cyxwiz_ffi_onion_enable_cover_traffic, if_pos honion, if_neg ho, invoke,
        onion_layer, onion_exec, set_ctx]
      split_ifs with h1
      · rw [h1]
      · rfl

/-- C8 at a concrete input: switching cover traffic on with the value `-5` on
the handle 7 of the modelled onion layer, then querying it. -/
theorem cover_traffic_round_trip_witness :
    (Crypto.cyxwiz_ffi_onion_cover_traffic_enabled (onion_layer hdr) 7
        (Crypto.cyxwiz_ffi_onion_enable_cover_traffic (onion_layer hdr) 7 (-5)
          (world0 ctx0))).1
      = (if (-5 : Int) ≠ 0 then 1 else 0) :=
  (cover_traffic_round_trip hdr (scripted 0 0 0) (world0 0) (world0 ctx0) 7 7 (-5)
    (by decide)).2.2.1

/-! ## C10: null handles -/

/-- C10 (amended). A null handle in the handle argument an operation acts on
(and, for the create operations, in any handle they depend on) never reaches
the library: the machine state, trace included, comes back unchanged; the
operations that report an outcome return `CYXWIZ_ERR_INVALID`, the observers
return `0`, destroy and enable_cover_traffic return nothing. The one handle
that is not checked is the `dht` argument of `cyxwiz_ffi_discovery_set_dht`:
with a non-null `discovery` and a null `dht` the binding calls
`cyxwiz_discovery_set_dht(discovery, NULL)` and returns `CYXWIZ_OK`. -/
theorem null_handle_never_reaches_library (H : Header) (X : Extern σ) (w : World σ)
    (out p q id data : Ptr) (n len : Nat) (enable : Int) :
    (cyxwiz_ffi_transport_destroy X NULL w = w ∧
      cyxwiz_ffi_transport_poll H X NULL n w = (H.CYXWIZ_ERR_INVALID, w) ∧
      cyxwiz_ffi_transport_set_local_id H X NULL id w = (H.CYXWIZ_ERR_INVALID, w) ∧
      cyxwiz_ffi_transport_is_bootstrap_connected X NULL w = (0, w)) ∧
    (cyxwiz_ffi_peer_table_destroy X NULL w = w ∧
      cyxwiz_ffi_peer_table_count X NULL w = (0, w) ∧
      cyxwiz_ffi_peer_table_connected_count X NULL w = (0, w)) ∧
    (cyxwiz_ffi_router_create H X out NULL q id w = (H.CYXWIZ_ERR_INVALID, w) ∧
      cyxwiz_ffi_router_create H X out p NULL id w = (H.CYXWIZ_ERR_INVALID, w) ∧
      cyxwiz_ffi_router_destroy X NULL w = w ∧
      cyxwiz_ffi_router_start H X NULL w = (H.CYXWIZ_ERR_INVALID, w) ∧
      cyxwiz_ffi_router_stop H X NULL w = (H.CYXWIZ_ERR_INVALID, w) ∧
      cyxwiz_ffi_router_poll H X NULL n w = (H.CYXWIZ_ERR_INVALID, w) ∧
      cyxwiz_ffi_router_send H X NULL id data len w = (H.CYXWIZ_ERR_INVALID, w)) ∧
    (cyxwiz_ffi_dht_create H X out NULL id w = (H.CYXWIZ_ERR_INVALID, w) ∧
      cyxwiz_ffi_dht_destroy X NULL w = w ∧
      cyxwiz_ffi_dht_poll H X NULL n w = (H.CYXWIZ_ERR_INVALID, w) ∧
      cyxwiz_ffi_dht_add_node H X NULL id w = (H.CYXWIZ_ERR_INVALID, w)) ∧
    (cyxwiz_ffi_discovery_create H X out NULL q id w = (H.CYXWIZ_ERR_INVALID, w) ∧
      cyxwiz_ffi_discovery_create H X out p NULL id w = (H.CYXWIZ_ERR_INVALID, w) ∧
      cyxwiz_ffi_discovery_destroy X NULL w = w ∧
      cyxwiz_ffi_discovery_start H X NULL w = (H.CYXWIZ_ERR_INVALID, w) ∧
      cyxwiz_ffi_discovery_stop H X NULL w = (H.CYXWIZ_ERR_INVALID, w) ∧
      cyxwiz_ffi_discovery_poll H X NULL n w = (H.CYXWIZ_ERR_INVALID, w) ∧
      cyxwiz_ffi_discovery_set_dht H X NULL q w = (H.CYXWIZ_ERR_INVALID, w)) ∧
    (Crypto.cyxwiz_ffi_onion_create H X out NULL id w = (H.CYXWIZ_ERR_INVALID, w) ∧
      Crypto.cyxwiz_ffi_onion_destroy X NULL w = w ∧
      Crypto.cyxwiz_ffi_onion_poll H X NULL n w = (H.CYXWIZ_ERR_INVALID, w) ∧
      Crypto.cyxwiz_ffi_onion_send H X NULL id data len w = (H.CYXWIZ_ERR_INVALID, w) ∧
      Crypto.cyxwiz_ffi_onion_get_pubkey H X NULL out w = (H.CYXWIZ_ERR_INVALID, w) ∧
      Crypto.cyxwiz_ffi_onion_add_peer_key H X NULL id data w = (H.CYXWIZ_ERR_INVALID, w) ∧
      Crypto.cyxwiz_ffi_onion_set_hops H X NULL n w = (H.CYXWIZ_ERR_INVALID, w) ∧
      Crypto.cyxwiz_ffi_onion_get_hops X NULL w = (0, w) ∧
      Crypto.cyxwiz_ffi_onion_circuit_count X NULL w = (0, w) ∧
      Crypto.cyxwiz_ffi_onion_peer_key_count X NULL w = (0, w) ∧
      Crypto.cyxwiz_ffi_onion_enable_cover_traffic X NULL enable w = w ∧
      Crypto.cyxwiz_ffi_onion_cover_traffic_enabled X NULL w = (0, w)) ∧
    (p ≠ NULL →
      (cyxwiz_ffi_discovery_set_dht H X p NULL w).1 = H.CYXWIZ_OK ∧
      (cyxwiz_ffi_discovery_set_dht H X p NULL w).2.calls
        = w.calls ++ [(.cyxwiz_discovery_set_dht p NULL,
            (X.exec w.lib w.env w.bytes (.cyxwiz_discovery_set_dht p NULL)).1)]) := by
  refine ⟨⟨rfl, rfl, ?_, rfl⟩, ⟨rfl, rfl, rfl⟩, ⟨?_, ?_, rfl, rfl, rfl, rfl, ?_⟩,
    ⟨?_, rfl, rfl, ?_⟩, ⟨?_, ?_, rfl, rfl, rfl, rfl, rfl⟩,
    ⟨?_, rfl, rfl, ?_, ?_, ?_, rfl, rfl, rfl, rfl, rfl, rfl⟩, ?_⟩
  · simp [cyxwiz_ffi_transport_set_local_id]
  · simp [cyxwiz_ffi_router_create]
  · simp [cyxwiz_ffi_router_create]
  · simp [cyxwiz_ffi_router_send]
  · simp [cyxwiz_ffi_dht_create]
  · simp [cyxwiz_ffi_dht_add_node]
  · simp [cyxwiz_ffi_discovery_create]
  · simp [cyxwiz_ffi_discovery_create]
  · simp [Crypto.cyxwiz_ffi_onion_create]
  · simp [Crypto.cyxwiz_ffi_onion_send]
  · simp [Crypto.cyxwiz_ffi_onion_get_pubkey]
  · simp [Crypto.cyxwiz_ffi_onion_add_peer_key]
  · intro hp
    simp only [cyxwiz_ffi_discovery_set_dht, if_neg hp, invoke]
    exact ⟨trivial, trivial⟩

/-- C10 (amended) at a concrete input: the discovery handle 7 with a null
`dht`, against the scripted library. -/
theorem null_handle_never_reaches_library_witness :
    (cyxwiz_ffi_discovery_set_dht hdr (scripted 0 0 0) 7 NULL (world0 0)).1 = hdr.CYXWIZ_OK ∧
    (cyxwiz_ffi_discovery_set_dht hdr (scripted 0 0 0) 7 NULL (world0 0)).2.calls
      = (world0 0).calls ++ [(.cyxwiz_discovery_set_dht 7 NULL,
          ((scripted 0 0 0).exec (world0 0).lib (world0 0).env (world0 0).bytes
            (.cyxwiz_discovery_set_dht 7 NULL)).1)] :=
  (null_handle_never_reaches_library hdr (scripted 0 0 0) (world0 0) 0 7 0 0 0 0 0 0).2.2.2.2.2.2
    (by decide)

/-- C10 as stated fails for the `dht` handle of `cyxwiz_ffi_discovery_set_dht`:
called with the discovery handle 7 and a null `dht`, the binding passes the
null handle on to `cyxwiz_discovery_set_dht`, returns `CYXWIZ_OK` rather than
`CYXWIZ_ERR_INVALID`, and the library state moves. -/
theorem null_dht_reaches_library :
    (cyxwiz_ffi_discovery_set_dht hdr (scripted 0 0 0) 7 NULL (world0 0)).1 = hdr.CYXWIZ_OK ∧
    (cyxwiz_ffi_discovery_set_dht hdr (scripted 0 0 0) 7 NULL (world0 0)).1
      ≠ hdr.CYXWIZ_ERR_INVALID ∧
    called (cyxwiz_ffi_discovery_set_dht hdr (scripted 0 0 0) 7 NULL (world0 0)).2.calls
      = [.cyxwiz_discovery_set_dht 7 NULL] ∧
    (cyxwiz_ffi_discovery_set_dht hdr (scripted 0 0 0) 7 NULL (world0 0)).2.lib
      ≠ (world0 0).lib := by
  refine ⟨by decide, by decide, by decide, by decide⟩

end CyxwizFfi
